import Mathlib

/-!
# Verification of the Market Confirmation & Staking Decision Engine

A shallow embedding, in Lean 4, of the decision core of the
`BLON333/Cooking-Recipes` repository (sports-betting market confirmation and
staking).  Python floats are modelled as exact rationals (`ℚ`), dictionaries
as association lists, fallible field access as `Option`.  Each definition is
translated from the corresponding Python source; definitions whose source
module is absent from the repository snapshot are marked
`Modelled from the spec:` in their doc comment.
-/

set_option autoImplicit false

namespace Cooking

/-! ## Python primitives -/

/-- Python's built-in `round` (no digits argument): round half to even. -/
def pyRound (q : ℚ) : ℤ :=
  if q - (⌊q⌋ : ℚ) < 1/2 then ⌊q⌋
  else if 1/2 < q - (⌊q⌋ : ℚ) then ⌊q⌋ + 1
  else if ⌊q⌋ % 2 = 0 then ⌊q⌋ else ⌊q⌋ + 1

/-- Python's binary `max` (returns the first argument on ties). -/
def pyMax (a b : ℚ) : ℚ := if b ≤ a then a else b

theorem pyMax_eq_max (a b : ℚ) : pyMax a b = max a b := by
  unfold pyMax
  by_cases h : b ≤ a
  · simp [h, max_eq_left h]
  · simp [h, max_eq_right (le_of_not_le h)]

theorem pyRound_intCast (n : ℤ) : pyRound (n : ℚ) = n := by
  simp [pyRound]

/-- Python's `round(x, n)`: round half to even at `n` decimal digits. -/
def pyRoundDigits (n : ℕ) (x : ℚ) : ℚ :=
  (pyRound (x * (10:ℚ)^n) : ℚ) / (10:ℚ)^n

/-- Python `x or d` on an optional float: `None` and `0.0` are falsy. -/
def pyOrQ (x : Option ℚ) (d : ℚ) : ℚ :=
  match x with
  | some v => if v = 0 then d else v
  | none => d

/-- Membership of the pattern as a contiguous substring (Python `pat in s`),
on character lists. -/
def listInfix (pat : List Char) : List Char → Bool
  | [] => pat.isEmpty
  | c :: cs => pat.isPrefixOf (c :: cs) || listInfix pat cs

/-- Python `pat in s` for strings. -/
def strIn (pat s : String) : Bool := listInfix pat.toList s.toList

/-- Python `s.startswith(pre)`. -/
def strStartsWith (s pre : String) : Bool := pre.toList.isPrefixOf s.toList

/-- One left-to-right, non-overlapping removal pass of `pat`
(Python `s.replace(pat, "")` for a non-empty `pat`), on character lists.
The first argument is recursion fuel, always instantiated with the list
length (each step strips at least one character, so the fuel never runs
out); it keeps the recursion structural. -/
def removeOccAux (pat : List Char) : ℕ → List Char → List Char
  | _, [] => []
  | 0, l => l
  | fuel + 1, c :: cs =>
    if pat.isPrefixOf (c :: cs) then removeOccAux pat fuel (cs.drop (pat.length - 1))
    else c :: removeOccAux pat fuel cs

/-- Python `s.replace(pat, "")`. -/
def strRemoveAll (pat s : String) : String :=
  String.mk (removeOccAux pat.toList s.toList.length s.toList)

/-- `market.replace("alternate_", "")` as used across the decision core. -/
def removeAlternate (s : String) : String := strRemoveAll "alternate_" s

/-- Python `s.lower()` (ASCII). -/
def toLowerStr (s : String) : String := String.mk (s.toList.map Char.toLower)

/-- Python `s.upper()` (ASCII). -/
def toUpperStr (s : String) : String := String.mk (s.toList.map Char.toUpper)

/-- Python `s.strip()`. -/
def stripStr (s : String) : String :=
  String.mk (((s.toList.dropWhile Char.isWhitespace).reverse.dropWhile
    Char.isWhitespace).reverse)

/-- Python `s.split()` on whitespace runs, dropping empty tokens. -/
def pySplitAux : List Char → List Char → List String
  | [], acc => if acc.isEmpty then [] else [String.mk acc.reverse]
  | c :: cs, acc =>
    if c.isWhitespace then
      if acc.isEmpty then pySplitAux cs []
      else String.mk acc.reverse :: pySplitAux cs []
    else pySplitAux cs (c :: acc)

/-- Python `s.split()`. -/
def pySplit (s : String) : List String := pySplitAux s.toList []

/-- Python `s.title()` (ASCII approximation: a letter is upper-cased when the
previous character is not a letter, lower-cased otherwise). -/
def pyTitleAux : Bool → List Char → List Char
  | _, [] => []
  | prev, c :: cs =>
    (if c.isAlpha then (if prev then c.toLower else c.toUpper) else c)
      :: pyTitleAux c.isAlpha cs

/-- Python `s.title()`. -/
def pyTitle (s : String) : String := String.mk (pyTitleAux false s.toList)

/-! ## Association lists (Python `dict` with string keys) -/

/-- `d.get(k)` on a string-keyed mapping. -/
def lookupA {α : Type} (k : String) : List (String × α) → Option α
  | [] => none
  | (k0, v0) :: rest => if k0 = k then some v0 else lookupA k rest

/-- `d[k] = v`: replace in place, or append when the key is new. -/
def setA {α : Type} (k : String) (v : α) : List (String × α) → List (String × α)
  | [] => [(k, v)]
  | (k0, v0) :: rest => if k0 = k then (k, v) :: rest else (k0, v0) :: setA k v rest

/-- `del d[k]` / `os.remove`: drop every binding of the key. -/
def eraseA {α : Type} (k : String) : List (String × α) → List (String × α)
  | [] => []
  | (k0, v0) :: rest => if k0 = k then eraseA k rest else (k0, v0) :: eraseA k rest

/-- `k in d`. -/
def containsA {α : Type} (m : List (String × α)) (k : String) : Bool :=
  (lookupA k m).isSome

theorem lookupA_setA_eq {α : Type} (k : String) (v : α) (m : List (String × α)) :
    lookupA k (setA k v m) = some v := by
  induction m with
  | nil => simp [setA, lookupA]
  | cons hd tl ih =>
    obtain ⟨k0, v0⟩ := hd
    by_cases h : k0 = k <;> simp [setA, lookupA, h, ih]

theorem lookupA_setA_ne {α : Type} {k k' : String} (v : α) (m : List (String × α))
    (h : k ≠ k') : lookupA k' (setA k v m) = lookupA k' m := by
  induction m with
  | nil => simp [setA, lookupA, h]
  | cons hd tl ih =>
    obtain ⟨k0, v0⟩ := hd
    by_cases h0 : k0 = k
    · subst h0; simp [setA, lookupA, h, ih]
    · simp only [setA, if_neg h0, lookupA]
      by_cases h1 : k0 = k' <;> simp [h1, ih]

theorem lookupA_eraseA_eq {α : Type} (k : String) (m : List (String × α)) :
    lookupA k (eraseA k m) = none := by
  induction m with
  | nil => simp [eraseA, lookupA]
  | cons hd tl ih =>
    obtain ⟨k0, v0⟩ := hd
    by_cases h : k0 = k <;> simp [eraseA, lookupA, h, ih]

theorem lookupA_eraseA_ne {α : Type} {k k' : String} (m : List (String × α))
    (h : k ≠ k') : lookupA k' (eraseA k m) = lookupA k' m := by
  induction m with
  | nil => simp [eraseA, lookupA]
  | cons hd tl ih =>
    obtain ⟨k0, v0⟩ := hd
    by_cases h0 : k0 = k
    · subst h0; simp [eraseA, lookupA, h, ih]
    · simp only [eraseA, if_neg h0, lookupA]
      by_cases h1 : k0 = k' <;> simp [h1, ih]

/-! ## `core/confirmation_utils.py`: the required-movement formula -/

/-- The `full_game` test of `required_market_move`
(src/core/confirmation_utils.py lines 83-93): a totals/spreads/runline
market that is not a first-innings or team-totals derivative. -/
def fullGameMarket : Option String → Bool
  | none => false
  | some m =>
    (strStartsWith m "totals" || strStartsWith m "spreads" || strStartsWith m "runline")
      && !(strIn "1st_" m) && !(strIn "1st" m) && !(strIn "team_totals" m)

/-- The volatile-segment test of `required_market_move`
(src/core/confirmation_utils.py lines 105-107). -/
def volatileSegmentMarket : Option String → Bool
  | none => false
  | some m => strIn "1st_3" m || strIn "1st_7" m || strIn "team_totals" m

/-- `required_market_move` from src/core/confirmation_utils.py lines 38-122.
Hours and EV arrive as already-converted floats (`ℚ`), the book count as an
`int`; a missing `ev_percent` is `none`. -/
def required_market_move (hours_to_game : ℚ) (book_count : ℤ)
    (market : Option String) (ev_percent : Option ℚ) : ℚ :=
  let movement_unit : ℚ := 45/10000
  let time_multiplier : ℚ := 1 + pyMax ((hours_to_game - 6) / 24) 0
  let book_multiplier : ℚ := 1 + (3/10) * ((max (3 - book_count) 0 : ℤ) : ℚ)
  let base0 := movement_unit * time_multiplier * book_multiplier
  let base1 :=
    if fullGameMarket market then
      match ev_percent with
      | some ev => if 10 ≤ ev ∧ ev ≤ 20 then base0 * (1/4) else base0 * (1/2)
      | none => base0 * (1/2)
    else base0
  let base2 := if volatileSegmentMarket market then base1 * (3/2) else base1
  match ev_percent with
  | some ev =>
    if 12 ≤ ev then base2 * (4/5)
    else if 5 ≤ ev ∧ ev ≤ 7 then base2 * (5/4) else base2
  | none => base2

/-- The spec's `time_multiplier` (§4.5). -/
def time_multiplier_spec (hours_to_game : ℚ) : ℚ :=
  1 + pyMax ((hours_to_game - 6) / 24) 0

/-- The spec's `book_multiplier` (§4.5). -/
def book_multiplier_spec (book_count : ℤ) : ℚ :=
  1 + (3/10) * ((max (3 - book_count) 0 : ℤ) : ℚ)

/-- The segment adjustment as the code applies it: the full-game
totals/spreads/runline discount and the derivative-segment penalty,
composed multiplicatively (they are mutually exclusive market classes). -/
def segment_adjustment_code (market : Option String) (ev_percent : Option ℚ) : ℚ :=
  (if fullGameMarket market then
    match ev_percent with
    | some ev => if 10 ≤ ev ∧ ev ≤ 20 then (1/4 : ℚ) else 1/2
    | none => 1/2
  else 1) * (if volatileSegmentMarket market then (3/2 : ℚ) else 1)

/-- The spec's `ev_adjustment` (§4.5). -/
def ev_adjustment_spec (ev_percent : Option ℚ) : ℚ :=
  match ev_percent with
  | some ev =>
    if 12 ≤ ev then 4/5
    else if 5 ≤ ev ∧ ev ≤ 7 then 5/4 else 1
  | none => 1

/-- Whether a market is a full-game moneyline, as claim C1's reading of the
spec ("full-game totals/spreads/moneylines") would require: an `h2h` or
`moneyline` market that is not a derivative segment. -/
def moneylineFullGame : Option String → Bool
  | none => false
  | some m =>
    (strStartsWith m "h2h" || strStartsWith m "moneyline")
      && !(strIn "1st" m) && !(strIn "team_totals" m)

/-- C1's stated segment adjustment: full-game totals/spreads/moneylines get
the EV-tiered discount; first-3/7-innings and team-totals markets get the
1.5 penalty. -/
def segment_adjustment_claimC1 (market : Option String) (ev_percent : Option ℚ) : ℚ :=
  (if fullGameMarket market || moneylineFullGame market then
    match ev_percent with
    | some ev => if 10 ≤ ev ∧ ev ≤ 20 then (1/4 : ℚ) else 1/2
    | none => 1/2
  else 1) * (if volatileSegmentMarket market then (3/2 : ℚ) else 1)

/-- C1's claimed formula for the required movement, verbatim from the claim:
`0.0045 * time_multiplier * book_multiplier * segment_adjustment *
ev_adjustment` with moneylines included in the full-game discount. -/
def required_move_claimC1 (hours_to_game : ℚ) (book_count : ℤ)
    (market : Option String) (ev_percent : Option ℚ) : ℚ :=
  45/10000 * time_multiplier_spec hours_to_game * book_multiplier_spec book_count
    * segment_adjustment_claimC1 market ev_percent * ev_adjustment_spec ev_percent

/-- C1, counterexample: the claim includes full-game moneylines in the
`×0.25`/`×0.50` segment discount, but `required_market_move` gives the
discount only to `totals`/`spreads`/`runline` markets.  At
`hours_to_game = 6`, `book_count = 3`, `market = "h2h"`, `ev_percent = 15`
the code returns `0.0045 × 0.8 = 0.0036`, while the claimed formula
predicts `0.0045 × 0.25 × 0.8 = 0.0009`. -/
theorem C1_counterexample :
    required_market_move 6 3 (some "h2h") (some 15) = 9/2500
      ∧ required_move_claimC1 6 3 (some "h2h") (some 15) = 9/10000
      ∧ required_market_move 6 3 (some "h2h") (some 15)
          ≠ required_move_claimC1 6 3 (some "h2h") (some 15) := by
  have h1 : fullGameMarket (some "h2h") = false := by decide
  have h2 : volatileSegmentMarket (some "h2h") = false := by decide
  have h3 : moneylineFullGame (some "h2h") = true := by decide
  refine ⟨?_, ?_, ?_⟩ <;>
    norm_num [required_market_move, required_move_claimC1,
      segment_adjustment_claimC1, ev_adjustment_spec, time_multiplier_spec,
      book_multiplier_spec, h1, h2, h3, pyMax]

/-- C1, amended: for every input, `required_market_move` equals
`0.0045 * time_multiplier * book_multiplier * segment_adjustment *
ev_adjustment`, where the segment discount (`×0.25` for EV in the 10–20
sweet band, else `×0.50`) applies to full-game totals/spreads/runline
markets only — moneylines get no discount — the first-3/first-7-innings and
team-totals penalty is `×1.5`, and the EV adjustment is `×0.8` for
EV ≥ 12 and `×1.25` for EV in 5–7. -/
theorem C1_required_move_formula (hours_to_game : ℚ) (book_count : ℤ)
    (market : Option String) (ev_percent : Option ℚ) :
    required_market_move hours_to_game book_count market ev_percent
      = 45/10000 * time_multiplier_spec hours_to_game
        * book_multiplier_spec book_count
        * segment_adjustment_code market ev_percent
        * ev_adjustment_spec ev_percent := by
  unfold required_market_move segment_adjustment_code ev_adjustment_spec
    time_multiplier_spec book_multiplier_spec
  rcases ev_percent with _ | ev
  · by_cases hf : fullGameMarket market <;>
      by_cases hv : volatileSegmentMarket market <;>
      simp [hf, hv] <;> ring
  · by_cases hf : fullGameMarket market <;>
      by_cases hv : volatileSegmentMarket market <;>
      simp [hf, hv] <;> split_ifs <;> ring

/-! ## Data model

A snapshot/evaluation row (`dict` in the source) with the fields the decision
core reads.  `Option` marks fields whose float conversion can fail or whose
key can be absent. -/

/-- A prior-snapshot stub attached to a row (`row["_prior_snapshot"]`); the
core only ever reads its `baseline_consensus_prob`. -/
structure PriorSnap where
  baseline_consensus_prob : Option ℚ
deriving DecidableEq, Repr

/-- An evaluation row. -/
structure Row where
  game_id : String
  market : String
  side : String
  raw_kelly : ℚ
  ev_percent : Option ℚ
  hours_to_game : Option ℚ
  market_odds : Option ℚ
  consensus_prob : Option ℚ
  market_prob : Option ℚ
  blended_fv : Option ℚ
  stake : Option ℚ
  sim_prob : Option ℚ
  baseline_consensus_prob : Option ℚ
  per_book : List String
  book : Option String
  best_book : Option String
  date_simulated : Option String
  raw_sportsbook : List (String × ℚ)
  prior_snapshot : Option PriorSnap
deriving DecidableEq, Repr

/-- A market-movement tracker entry, as written by
`track_and_update_market_movement` (src/core/market_movement_tracker.py
lines 211-225).  `consensus_prob` is carried because `should_log_bet` probes
the key; entries written by the tracker itself leave it absent. -/
structure TrackerEntry where
  ev_percent : Option ℚ
  blended_fv : Option ℚ
  market_odds : Option ℚ
  stake : Option ℚ
  sim_prob : Option ℚ
  market_prob : Option ℚ
  consensus_prob : Option ℚ
  date_simulated : Option String
  best_book : Option String
  raw_sportsbook : List (String × ℚ)
  prev_raw_sportsbook : List (String × ℚ)
  baseline_consensus_prob : Option ℚ
deriving DecidableEq, Repr

/-- A tracker: mapping from `game_id:market:side` keys to entries. -/
abbrev Tracker : Type := List (String × TrackerEntry)

/-! ## Spec-modelled collaborators

The modules `core/utils.py`, `core/market_pricer.py` and `core/constants.py`
are not part of the repository snapshot; only their callers are.  The
definitions below model the missing pieces from the spec. -/

/-- Modelled from the spec: `normalize_label_for_odds` (from the missing
`core/utils.py`).  §3 requires only that side labels be brought to a
canonical form so lookups are stable; rows are modelled as already
canonical, so normalization is the identity. -/
def normalize_label_for_odds (side _market : String) : String := side

/-- Modelled from the spec: `canonical_game_id` (from the missing
`core/utils.py`).  §3: team-code canonicalization and start-time rounding;
game ids are modelled as already canonical, so this is the identity. -/
def canonical_game_id (gid : String) : String := gid

/-- Modelled from the spec: `market_prob_increase_threshold` (from the
missing `core/constants.py`).  §4.4 gives the movement dead-zone as
"~1e-4". -/
def market_prob_increase_threshold : ℚ := 1/10000

/-- Modelled from the spec: `decimal_odds` (from the missing
`core/market_pricer.py`), "the standard negative/positive branch formula"
(§4.3); American odds of 0 raise in the source and are modelled as
`none`. -/
def decimal_odds (odds : ℚ) : Option ℚ :=
  if 0 < odds then some (1 + odds / 100)
  else if odds < 0 then some (1 + 100 / (-odds))
  else none

/-- Modelled from the spec: `TEAM_ABBR_TO_NAME` (from the missing
`core/utils.py`), the standard MLB abbreviation map referenced by §3's
team-code canonicalization. -/
def TEAM_ABBR_TO_NAME : List (String × String) :=
  [("ARI", "Arizona"), ("ATL", "Atlanta"), ("BAL", "Baltimore"),
   ("BOS", "Boston"), ("CHC", "Chicago Cubs"), ("CWS", "Chicago White Sox"),
   ("CIN", "Cincinnati"), ("CLE", "Cleveland"), ("COL", "Colorado"),
   ("DET", "Detroit"), ("HOU", "Houston"), ("KC", "Kansas City"),
   ("LAA", "Los Angeles Angels"), ("LAD", "Los Angeles Dodgers"),
   ("MIA", "Miami"), ("MIL", "Milwaukee"), ("MIN", "Minnesota"),
   ("NYM", "New York Mets"), ("NYY", "New York Yankees"),
   ("OAK", "Oakland"), ("PHI", "Philadelphia"), ("PIT", "Pittsburgh"),
   ("SD", "San Diego"), ("SEA", "Seattle"), ("SF", "San Francisco"),
   ("STL", "St. Louis"), ("TB", "Tampa Bay"), ("TEX", "Texas"),
   ("TOR", "Toronto"), ("WSH", "Washington")]

/-- Modelled from the spec: `TEAM_NAME_TO_ABBR` (from the missing
`core/utils.py`), the reverse of `TEAM_ABBR_TO_NAME`. -/
def TEAM_NAME_TO_ABBR : List (String × String) :=
  TEAM_ABBR_TO_NAME.map (fun p => (p.2, p.1))

/-! ## `core/should_log_bet.py`: theme and segment helpers -/

/-- Constants from src/core/should_log_bet.py lines 3-12. -/
def MIN_FIRST_STAKE : ℚ := 1
def MIN_TOPUP_STAKE : ℚ := 1/2
def ROUND_STAKE_TO : ℚ := 1/100
def MAX_POSITIVE_ODDS : ℚ := 200
def MIN_NEGATIVE_ODDS : ℚ := -150

/-- `round_stake` (src/core/should_log_bet.py lines 45-47):
`round(stake / precision) * precision`. -/
def round_stake (stake : ℚ) : ℚ :=
  (pyRound (stake / ROUND_STAKE_TO) : ℚ) * ROUND_STAKE_TO

/-- `MIN_EV_THRESHOLDS` (src/core/should_log_bet.py lines 15-25). -/
def MIN_EV_THRESHOLDS : List (String × ℚ) :=
  [("1st_3", 2/25), ("1st_7", 2/25), ("1st", 1/10), ("1st_5", 1/20),
   ("team_totals", 2/25), ("spread", 1/20), ("total", 1/20), ("h2h", 1/20),
   ("h2h_1st_5", 1/25)]

/-- `normalize_market_key` (src/core/should_log_bet.py lines 55-64). -/
def normalize_market_key (market : String) : String :=
  let base := toLowerStr (removeAlternate market)
  if strStartsWith base "totals" || strStartsWith base "team_totals" then "total"
  else if strStartsWith base "spreads" || strStartsWith base "runline" then "spread"
  else if base = "h2h" || base = "moneyline" || strStartsWith base "h2h"
      || strStartsWith base "moneyline" then "h2h"
  else base

/-- `normalize_segment` (src/core/should_log_bet.py lines 111-122). -/
def normalize_segment (market : String) : String :=
  let m := toLowerStr market
  if strIn "1st_3" m then "1st_3"
  else if strIn "1st_5" m then "1st_5"
  else if strIn "1st_7" m then "1st_7"
  else if strIn "1st_1" m || strIn "1st_inning" m then "1st"
  else "full_game"

/-- The token scan of `parse_team_total_side`
(src/core/should_log_bet.py lines 131-138): the first token whose
upper-casing is a team abbreviation, else whose title-casing is a team
name. -/
def findTeamToken : List String → Option String
  | [] => none
  | t :: ts =>
    if containsA TEAM_ABBR_TO_NAME (toUpperStr t) then some (toUpperStr t)
    else if containsA TEAM_NAME_TO_ABBR (pyTitle t) then
      some ((lookupA (pyTitle t) TEAM_NAME_TO_ABBR).getD "")
    else findTeamToken ts

/-- `parse_team_total_side` (src/core/should_log_bet.py lines 125-143).
`tokens[0]` on an empty side raises `IndexError` in the source; modelled
as the empty token. -/
def parse_team_total_side (side : String) : String × String :=
  let tokens := pySplit side
  let direction :=
    if tokens.contains "Over" then "Over"
    else if tokens.contains "Under" then "Under" else ""
  let team :=
    match findTeamToken tokens with
    | some a => a
    | none => toUpperStr (tokens.headD "")
  (team, direction)

/-- The final name scan of `get_theme` (src/core/should_log_bet.py lines
91-93): the first team name the side starts with. -/
def findTeamNamePrefix (side : String) : Option String :=
  (TEAM_NAME_TO_ABBR.find? (fun p => strStartsWith side p.1)).map (fun p => p.1)

/-- `get_theme` (src/core/should_log_bet.py lines 67-94). -/
def get_theme (side0 market0 : String) : String :=
  let side := stripStr side0
  let market := removeAlternate market0
  let ttDirection :=
    if strIn "team_totals" market then (parse_team_total_side side).2 else ""
  if ttDirection ≠ "" then ttDirection
  else if strStartsWith side "Over" then "Over"
  else if strStartsWith side "Under" then "Under"
  else if strIn "h2h" market || strIn "spreads" market || strIn "runline" market then
    match pySplit side with
    | [] => (findTeamNamePrefix side).getD "Other"
    | first :: _ =>
      if containsA TEAM_ABBR_TO_NAME (toUpperStr first) then toUpperStr first
      else if containsA TEAM_NAME_TO_ABBR (pyTitle first) then
        (lookupA (pyTitle first) TEAM_NAME_TO_ABBR).getD "Other"
      else (findTeamNamePrefix side).getD "Other"
  else "Other"

/-- `get_theme_key` (src/core/should_log_bet.py lines 97-102). -/
def get_theme_key (market theme : String) : String :=
  let key := normalize_market_key market
  if key = "total" || key = "spread" || key = "h2h" then theme ++ "_" ++ key
  else theme ++ "_other"

/-- `make_theme_key` (src/core/theme_key_utils.py lines 8-21). -/
def make_theme_key (game_id theme segment : String) : String :=
  let seg := if segment = "full_game" then "" else segment
  if seg = "" then game_id ++ "::" ++ theme
  else game_id ++ "::" ++ theme ++ "::" ++ seg

/-! ## `core/should_log_bet.py`: the decision function

`should_log_bet` imports `book_agreement_score` from
`core/confirmation_utils.py` and forwards an `agreement=` keyword to
`required_market_move`; `confirmation_utils.py` defines neither.  The spec's
required-move formula (§4.5) has no agreement factor, so the missing piece
is modelled from the spec: the agreement value does not enter the threshold,
and the call reduces to `required_market_move` as defined above.  (That the
name `book_agreement_score` cannot be resolved is settled under claim C7.) -/

/-- The result `dict` of `should_log_bet`: the decision fields every return
path sets (the row spread into the result is the unchanged input row). -/
structure BetResult where
  log : Bool
  skip : Bool
  stake : ℚ
  entry_type : String
  movement : ℚ
  required_movement : ℚ
  skip_reason : Option String
  reason : Option String
deriving DecidableEq, Repr

/-- Odds-band gate (src/core/should_log_bet.py lines 301-323): an odds value
outside `[-150, 200]`. -/
def oddsOutB (row : Row) : Bool :=
  match row.market_odds with
  | some o => decide (MAX_POSITIVE_ODDS < o) || decide (o < MIN_NEGATIVE_ODDS)
  | none => false

/-- The EV threshold fraction (src/core/should_log_bet.py lines 325-340):
combo key, then segment, then category, then the `min_ev` fallback. -/
def evThresholdFrac (market : String) (min_ev : ℚ) : ℚ :=
  let segment := normalize_segment market
  let base_market := toLowerStr (removeAlternate market)
  let category :=
    if strStartsWith base_market "team_totals" then "team_totals"
    else normalize_market_key base_market
  let combo_key := category ++ "_" ++ segment
  match lookupA combo_key MIN_EV_THRESHOLDS with
  | some v => v
  | none =>
    match lookupA segment MIN_EV_THRESHOLDS with
    | some v => v
    | none => (lookupA category MIN_EV_THRESHOLDS).getD min_ev

/-- EV gate (src/core/should_log_bet.py line 342): EV% below the threshold
fraction times 100. -/
def lowEvB (row : Row) (min_ev : ℚ) : Bool :=
  decide (row.ev_percent.getD 0 < evThresholdFrac row.market min_ev * 100)

/-- The exposure key of a row (src/core/should_log_bet.py lines 359-362). -/
def exposureKeyOf (row : Row) : String :=
  let side := normalize_label_for_odds row.side row.market
  let base_market := removeAlternate row.market
  let theme := get_theme side base_market
  let theme_key := get_theme_key base_market theme
  make_theme_key row.game_id theme_key (normalize_segment row.market)

/-- Cumulative theme exposure of a row (src/core/should_log_bet.py
line 363): `exposure.get(exposure_key, 0.0)`. -/
def themeTotalOf (row : Row) (exposure : List (String × ℚ)) : ℚ :=
  (lookupA (exposureKeyOf row) exposure).getD 0

/-- The tracker key of a row (src/core/should_log_bet.py line 370). -/
def tKeyOf (row : Row) : String :=
  row.game_id ++ ":" ++ row.market ++ ":" ++ normalize_label_for_odds row.side row.market

/-- The prior tracker entry (src/core/should_log_bet.py lines 372-380):
`reference_tracker` first, then `eval_tracker`. -/
def priorEntryOf (row : Row) (eval_tracker reference_tracker : Option Tracker) :
    Option TrackerEntry :=
  match reference_tracker.bind (lookupA (tKeyOf row)) with
  | some e => some e
  | none => eval_tracker.bind (lookupA (tKeyOf row))

/-- The previous consensus probability (src/core/should_log_bet.py lines
385-389): the prior entry's `consensus_prob`, falling back to its
`market_prob`. -/
def prevProbOf (row : Row) (eval_tracker reference_tracker : Option Tracker) :
    Option ℚ :=
  (priorEntryOf row eval_tracker reference_tracker).bind
    (fun e => e.consensus_prob <|> e.market_prob)

/-- The current consensus probability (src/core/should_log_bet.py lines
390-392): the row's `consensus_prob`, falling back to its `market_prob`. -/
def currProbOf (row : Row) : Option ℚ :=
  row.consensus_prob <|> row.market_prob

/-- Observed movement (src/core/should_log_bet.py lines 393-398): current
minus previous when both exist, else 0. -/
def movementOf (row : Row) (eval_tracker reference_tracker : Option Tracker) : ℚ :=
  match prevProbOf row eval_tracker reference_tracker, currProbOf row with
  | some p, some c => c - p
  | _, _ => 0

/-- Contributing book count (src/core/should_log_bet.py lines 400-401):
the size of `per_book` when non-empty, else 1. -/
def bookCountOf (row : Row) : ℤ :=
  if row.per_book.isEmpty then 1 else row.per_book.length

/-- The confirmation threshold (src/core/should_log_bet.py lines 403-409):
`required_market_move(hours_to_game or 8, book_count, market, ev_percent)`
(the agreement keyword is spec-modelled away, see above). -/
def thresholdOf (row : Row) : ℚ :=
  required_market_move (pyOrQ row.hours_to_game 8) (bookCountOf row)
    (some row.market) row.ev_percent

/-- Confirmation gate (src/core/should_log_bet.py line 410): a prior
probability exists, movement is below the threshold, and theme exposure is
zero. -/
def notConfirmedB (row : Row) (exposure : List (String × ℚ))
    (eval_tracker reference_tracker : Option Tracker) : Bool :=
  (prevProbOf row eval_tracker reference_tracker).isSome
    && decide (movementOf row eval_tracker reference_tracker < thresholdOf row)
    && decide (themeTotalOf row exposure = 0)

/-- Early-bet time gate (src/core/should_log_bet.py line 431): a
low-liquidity segment more than 12 hours out. -/
def timeBlockedB (row : Row) : Bool :=
  (["1st_3", "1st_7", "team_totals"].contains (normalize_segment row.market))
    && match row.hours_to_game with
       | some h => decide (12 < h)
       | none => false

/-- `should_log_bet` (src/core/should_log_bet.py lines 252-530). -/
def should_log_bet (row : Row) (exposure : List (String × ℚ)) (min_ev : ℚ)
    (eval_tracker reference_tracker : Option Tracker) : BetResult :=
  let stake := round_stake (row.raw_kelly * (1/4))
  let movement := movementOf row eval_tracker reference_tracker
  let threshold := thresholdOf row
  let theme_total := themeTotalOf row exposure
  if oddsOutB row then
    { log := false, skip := true, stake := 0, entry_type := "none",
      movement := 0, required_movement := 0,
      skip_reason := some "bad_odds", reason := some "bad_odds" }
  else if lowEvB row min_ev then
    { log := false, skip := true, stake := 0, entry_type := "none",
      movement := 0, required_movement := evThresholdFrac row.market min_ev,
      skip_reason := some "low_ev", reason := some "low_ev" }
  else if notConfirmedB row exposure eval_tracker reference_tracker then
    { log := false, skip := true, stake := 0, entry_type := "none",
      movement := movement, required_movement := threshold,
      skip_reason := some "not_confirmed", reason := some "not_confirmed" }
  else if timeBlockedB row then
    { log := false, skip := true, stake := 0, entry_type := "none",
      movement := movement, required_movement := threshold,
      skip_reason := some "time_blocked", reason := some "time_blocked" }
  else if theme_total = 0 then
    let stake_to_log := round_stake stake
    if stake_to_log < MIN_FIRST_STAKE then
      { log := false, skip := true, stake := 0, entry_type := "none",
        movement := movement, required_movement := threshold,
        skip_reason := some "low_initial", reason := some "low_initial" }
    else
      { log := true, skip := false, stake := stake_to_log,
        entry_type := "first", movement := movement,
        required_movement := threshold, skip_reason := none, reason := none }
  else
    let delta := round_stake (stake - theme_total)
    if MIN_TOPUP_STAKE ≤ delta then
      { log := true, skip := false, stake := delta, entry_type := "top-up",
        movement := movement, required_movement := threshold,
        skip_reason := none, reason := none }
    else if 0 < delta then
      { log := false, skip := true, stake := 0, entry_type := "none",
        movement := movement, required_movement := threshold,
        skip_reason := some "low_topup", reason := some "low_topup" }
    else
      { log := false, skip := true, stake := 0, entry_type := "none",
        movement := movement, required_movement := threshold,
        skip_reason := some "already_logged", reason := some "already_logged" }

/-! Branch-evaluation lemmas for `should_log_bet`: one per return path. -/

theorem slb_eval_not_confirmed (row : Row) (exposure : List (String × ℚ))
    (min_ev : ℚ) (et rt : Option Tracker)
    (h1 : oddsOutB row = false) (h2 : lowEvB row min_ev = false)
    (h3 : notConfirmedB row exposure et rt = true) :
    should_log_bet row exposure min_ev et rt =
      { log := false, skip := true, stake := 0, entry_type := "none",
        movement := movementOf row et rt, required_movement := thresholdOf row,
        skip_reason := some "not_confirmed", reason := some "not_confirmed" } := by
  unfold should_log_bet
  simp [h1, h2, h3]

theorem slb_eval_low_initial (row : Row) (exposure : List (String × ℚ))
    (min_ev : ℚ) (et rt : Option Tracker)
    (h1 : oddsOutB row = false) (h2 : lowEvB row min_ev = false)
    (h3 : notConfirmedB row exposure et rt = false)
    (h4 : timeBlockedB row = false)
    (h5 : themeTotalOf row exposure = 0)
    (h6 : round_stake (round_stake (row.raw_kelly * (1/4))) < MIN_FIRST_STAKE) :
    should_log_bet row exposure min_ev et rt =
      { log := false, skip := true, stake := 0, entry_type := "none",
        movement := movementOf row et rt, required_movement := thresholdOf row,
        skip_reason := some "low_initial", reason := some "low_initial" } := by
  unfold should_log_bet
  simp only [one_div] at h6
  simp [h1, h2, h3, h4, h5, h6]

theorem slb_eval_first (row : Row) (exposure : List (String × ℚ))
    (min_ev : ℚ) (et rt : Option Tracker)
    (h1 : oddsOutB row = false) (h2 : lowEvB row min_ev = false)
    (h3 : notConfirmedB row exposure et rt = false)
    (h4 : timeBlockedB row = false)
    (h5 : themeTotalOf row exposure = 0)
    (h6 : MIN_FIRST_STAKE ≤ round_stake (round_stake (row.raw_kelly * (1/4)))) :
    should_log_bet row exposure min_ev et rt =
      { log := true, skip := false,
        stake := round_stake (round_stake (row.raw_kelly * (1/4))),
        entry_type := "first", movement := movementOf row et rt,
        required_movement := thresholdOf row,
        skip_reason := none, reason := none } := by
  unfold should_log_bet
  simp only [one_div] at h6
  simp [h1, h2, h3, h4, h5, not_lt.mpr h6]

theorem slb_eval_topup (row : Row) (exposure : List (String × ℚ))
    (min_ev : ℚ) (et rt : Option Tracker)
    (h1 : oddsOutB row = false) (h2 : lowEvB row min_ev = false)
    (h3 : notConfirmedB row exposure et rt = false)
    (h4 : timeBlockedB row = false)
    (h5 : themeTotalOf row exposure ≠ 0)
    (h6 : MIN_TOPUP_STAKE ≤
      round_stake (round_stake (row.raw_kelly * (1/4)) - themeTotalOf row exposure)) :
    should_log_bet row exposure min_ev et rt =
      { log := true, skip := false,
        stake := round_stake
          (round_stake (row.raw_kelly * (1/4)) - themeTotalOf row exposure),
        entry_type := "top-up", movement := movementOf row et rt,
        required_movement := thresholdOf row,
        skip_reason := none, reason := none } := by
  unfold should_log_bet
  simp only [one_div] at h6
  simp [h1, h2, h3, h4, h5, h6]

theorem slb_eval_low_topup (row : Row) (exposure : List (String × ℚ))
    (min_ev : ℚ) (et rt : Option Tracker)
    (h1 : oddsOutB row = false) (h2 : lowEvB row min_ev = false)
    (h3 : notConfirmedB row exposure et rt = false)
    (h4 : timeBlockedB row = false)
    (h5 : themeTotalOf row exposure ≠ 0)
    (h6 : round_stake (round_stake (row.raw_kelly * (1/4)) - themeTotalOf row exposure)
      < MIN_TOPUP_STAKE)
    (h7 : 0 < round_stake
      (round_stake (row.raw_kelly * (1/4)) - themeTotalOf row exposure)) :
    should_log_bet row exposure min_ev et rt =
      { log := false, skip := true, stake := 0, entry_type := "none",
        movement := movementOf row et rt, required_movement := thresholdOf row,
        skip_reason := some "low_topup", reason := some "low_topup" } := by
  unfold should_log_bet
  simp only [one_div] at h6 h7
  simp [h1, h2, h3, h4, h5, h7, not_le.mpr h6]

theorem slb_eval_already_logged (row : Row) (exposure : List (String × ℚ))
    (min_ev : ℚ) (et rt : Option Tracker)
    (h1 : oddsOutB row = false) (h2 : lowEvB row min_ev = false)
    (h3 : notConfirmedB row exposure et rt = false)
    (h4 : timeBlockedB row = false)
    (h5 : themeTotalOf row exposure ≠ 0)
    (h6 : round_stake (round_stake (row.raw_kelly * (1/4)) - themeTotalOf row exposure)
      ≤ 0) :
    should_log_bet row exposure min_ev et rt =
      { log := false, skip := true, stake := 0, entry_type := "none",
        movement := movementOf row et rt, required_movement := thresholdOf row,
        skip_reason := some "already_logged", reason := some "already_logged" } := by
  unfold should_log_bet
  have h7 : ¬ MIN_TOPUP_STAKE ≤
      round_stake (round_stake (row.raw_kelly * (1/4)) - themeTotalOf row exposure) := by
    unfold MIN_TOPUP_STAKE
    intro hc
    linarith
  simp only [one_div] at h6 h7
  simp [h1, h2, h3, h4, h5, h7, not_lt.mpr h6]

/-- Evaluate `round_stake` on a value that is an exact number of cents. -/
theorem round_stake_eval (x : ℚ) (k : ℤ) (h : x * 100 = (k : ℚ)) :
    round_stake x = (k : ℚ) / 100 := by
  unfold round_stake ROUND_STAKE_TO
  have hx : x / (1/100) = (k : ℚ) := by
    rw [← h]; ring
  rw [hx, pyRound_intCast]
  ring

/-- The Boolean confirmation gate unfolded to its three conjuncts. -/
theorem notConfirmedB_iff (row : Row) (exposure : List (String × ℚ))
    (et rt : Option Tracker) :
    notConfirmedB row exposure et rt = true
      ↔ ((prevProbOf row et rt).isSome = true
          ∧ movementOf row et rt < thresholdOf row
          ∧ themeTotalOf row exposure = 0) := by
  unfold notConfirmedB
  simp [Bool.and_eq_true, decide_eq_true_eq, and_assoc]

/-- C2, amended: for a row that passes the odds-band, EV, confirmation and
time gates with zero theme exposure, the stake is `raw_kelly × 0.25` rounded
to hundredths of a unit (not `raw_kelly` itself); below 1.0 unit the bet is
rejected with `low_initial`, otherwise it is accepted as a first entry with
exactly that stake. -/
theorem C2_first_entry_stake (row : Row) (exposure : List (String × ℚ))
    (min_ev : ℚ) (et rt : Option Tracker)
    (h1 : oddsOutB row = false) (h2 : lowEvB row min_ev = false)
    (h3 : notConfirmedB row exposure et rt = false)
    (h4 : timeBlockedB row = false)
    (h5 : themeTotalOf row exposure = 0) :
    (round_stake (round_stake (row.raw_kelly * (1/4))) < MIN_FIRST_STAKE →
      should_log_bet row exposure min_ev et rt =
        { log := false, skip := true, stake := 0, entry_type := "none",
          movement := movementOf row et rt, required_movement := thresholdOf row,
          skip_reason := some "low_initial", reason := some "low_initial" })
    ∧ (MIN_FIRST_STAKE ≤ round_stake (round_stake (row.raw_kelly * (1/4))) →
      should_log_bet row exposure min_ev et rt =
        { log := true, skip := false,
          stake := round_stake (round_stake (row.raw_kelly * (1/4))),
          entry_type := "first", movement := movementOf row et rt,
          required_movement := thresholdOf row,
          skip_reason := none, reason := none }) :=
  ⟨fun h6 => slb_eval_low_initial row exposure min_ev et rt h1 h2 h3 h4 h5 h6,
   fun h6 => slb_eval_first row exposure min_ev et rt h1 h2 h3 h4 h5 h6⟩

/-- The concrete first-entry row used for claims about `should_log_bet`:
a full-game totals bet at +100 odds, 6% EV, 5 hours to game, `raw_kelly`
of 8 units, no tracker entry, no exposure. -/
def rowC2 : Row :=
  { game_id := "2026-04-01-ATL@NYM-T19:10", market := "totals",
    side := "Over 8.5", raw_kelly := 8, ev_percent := some 6,
    hours_to_game := some 5, market_odds := some 100,
    consensus_prob := some (47/100), market_prob := none,
    blended_fv := none, stake := none, sim_prob := none,
    baseline_consensus_prob := none, per_book := [], book := none,
    best_book := none, date_simulated := none, raw_sportsbook := [],
    prior_snapshot := none }

/-- `rowC2` passes every gate before the staking step. -/
theorem rowC2_gates :
    oddsOutB rowC2 = false ∧ lowEvB rowC2 (1/20) = false
    ∧ notConfirmedB rowC2 [] none none = false
    ∧ timeBlockedB rowC2 = false ∧ themeTotalOf rowC2 [] = 0 := by
  refine ⟨by decide, ?_, ?_, by decide, by simp [themeTotalOf, lookupA]⟩
  · simp +decide [lowEvB, rowC2, evThresholdFrac, normalize_segment,
      normalize_market_key, toLowerStr, removeAlternate, strRemoveAll,
      removeOccAux, strStartsWith, strIn, listInfix, lookupA, MIN_EV_THRESHOLDS]
    norm_num
  · simp [notConfirmedB, prevProbOf, priorEntryOf, rowC2, tKeyOf]

/-- The stake computation on `rowC2`: a quarter of `raw_kelly = 8`. -/
theorem rowC2_stake :
    round_stake (round_stake (rowC2.raw_kelly * (1/4))) = 2 := by
  have h1 : round_stake (rowC2.raw_kelly * (1/4)) = ((200:ℤ):ℚ)/100 := by
    apply round_stake_eval
    simp [rowC2]
    norm_num
  rw [h1]
  have h2 : round_stake (((200:ℤ):ℚ)/100) = ((200:ℤ):ℚ)/100 := by
    apply round_stake_eval
    norm_num
  rw [h2]
  norm_num

/-- C2, counterexample: `rowC2` passes every gate with zero theme exposure
and `raw_kelly = 8`, yet the accepted first-entry stake is `2`, not
`raw_kelly` rounded to hundredths (which is `8`). -/
theorem C2_counterexample :
    (should_log_bet rowC2 [] (1/20) none none).entry_type = "first"
    ∧ (should_log_bet rowC2 [] (1/20) none none).stake = 2
    ∧ round_stake rowC2.raw_kelly = 8
    ∧ (should_log_bet rowC2 [] (1/20) none none).stake
        ≠ round_stake rowC2.raw_kelly := by
  obtain ⟨g1, g2, g3, g4, g5⟩ := rowC2_gates
  have h6 : MIN_FIRST_STAKE ≤ round_stake (round_stake (rowC2.raw_kelly * (1/4))) := by
    rw [rowC2_stake]; unfold MIN_FIRST_STAKE; norm_num
  have hev := slb_eval_first rowC2 [] (1/20) none none g1 g2 g3 g4 g5 h6
  have hrk : round_stake rowC2.raw_kelly = 8 := by
    have := round_stake_eval rowC2.raw_kelly 800 (by simp [rowC2]; norm_num)
    rw [this]; norm_num
  refine ⟨by rw [hev], ?_, hrk, ?_⟩
  · rw [hev]; exact rowC2_stake
  · rw [hev, hrk]
    simp only []
    rw [rowC2_stake]
    norm_num

/-- C2, witness: the amended theorem applied to `rowC2`. -/
theorem C2_witness :
    (should_log_bet rowC2 [] (1/20) none none).entry_type = "first"
    ∧ (should_log_bet rowC2 [] (1/20) none none).stake = 2 := by
  obtain ⟨g1, g2, g3, g4, g5⟩ := rowC2_gates
  have h6 : MIN_FIRST_STAKE ≤ round_stake (round_stake (rowC2.raw_kelly * (1/4))) := by
    rw [rowC2_stake]; unfold MIN_FIRST_STAKE; norm_num
  have hev := (C2_first_entry_stake rowC2 [] (1/20) none none g1 g2 g3 g4 g5).2 h6
  exact ⟨by rw [hev], by rw [hev]; exact rowC2_stake⟩

/-- The EV gate passes when EV% reaches the threshold fraction × 100. -/
theorem lowEvB_eval (row : Row) (min_ev : ℚ)
    (h : evThresholdFrac row.market min_ev * 100 ≤ row.ev_percent.getD 0) :
    lowEvB row min_ev = false := by
  unfold lowEvB
  simp [not_lt.mpr h]

/-- With no trackers there is no prior probability, so the confirmation gate
never fires. -/
theorem notConfirmedB_none (row : Row) (exposure : List (String × ℚ)) :
    notConfirmedB row exposure none none = false := by
  simp [notConfirmedB, prevProbOf, priorEntryOf]

/-- C3, amended: for a row that passes the earlier gates with nonzero theme
exposure, the code's top-up delta is
`round(round(raw_kelly × 0.25) − theme_exposure)` (to hundredths), not
`raw_kelly − theme_exposure`; a delta of at least 0.5 unit is accepted as a
top-up with stake equal to the delta, a positive delta under 0.5 is rejected
with `low_topup`, and a non-positive delta is rejected with
`already_logged`. -/
theorem C3_topup_delta (row : Row) (exposure : List (String × ℚ))
    (min_ev : ℚ) (et rt : Option Tracker)
    (h1 : oddsOutB row = false) (h2 : lowEvB row min_ev = false)
    (h3 : notConfirmedB row exposure et rt = false)
    (h4 : timeBlockedB row = false)
    (h5 : themeTotalOf row exposure ≠ 0) :
    (MIN_TOPUP_STAKE ≤ round_stake
        (round_stake (row.raw_kelly * (1/4)) - themeTotalOf row exposure) →
      should_log_bet row exposure min_ev et rt =
        { log := true, skip := false,
          stake := round_stake
            (round_stake (row.raw_kelly * (1/4)) - themeTotalOf row exposure),
          entry_type := "top-up", movement := movementOf row et rt,
          required_movement := thresholdOf row,
          skip_reason := none, reason := none })
    ∧ (0 < round_stake
          (round_stake (row.raw_kelly * (1/4)) - themeTotalOf row exposure) →
       round_stake
          (round_stake (row.raw_kelly * (1/4)) - themeTotalOf row exposure)
          < MIN_TOPUP_STAKE →
      should_log_bet row exposure min_ev et rt =
        { log := false, skip := true, stake := 0, entry_type := "none",
          movement := movementOf row et rt, required_movement := thresholdOf row,
          skip_reason := some "low_topup", reason := some "low_topup" })
    ∧ (round_stake
          (round_stake (row.raw_kelly * (1/4)) - themeTotalOf row exposure) ≤ 0 →
      should_log_bet row exposure min_ev et rt =
        { log := false, skip := true, stake := 0, entry_type := "none",
          movement := movementOf row et rt, required_movement := thresholdOf row,
          skip_reason := some "already_logged",
          reason := some "already_logged" }) :=
  ⟨fun h6 => slb_eval_topup row exposure min_ev et rt h1 h2 h3 h4 h5 h6,
   fun h7 h6 => slb_eval_low_topup row exposure min_ev et rt h1 h2 h3 h4 h5 h6 h7,
   fun h6 => slb_eval_already_logged row exposure min_ev et rt h1 h2 h3 h4 h5 h6⟩

/-- The concrete micro-top-up row: same shape as `rowC2` but with
`raw_kelly = 2` against existing theme exposure of 0.4 units. -/
def rowC3 : Row :=
  { game_id := "2026-04-02-BOS@NYY-T13:05", market := "totals",
    side := "Over 9.5", raw_kelly := 2, ev_percent := some 6,
    hours_to_game := some 5, market_odds := some 100,
    consensus_prob := some (52/100), market_prob := none,
    blended_fv := none, stake := none, sim_prob := none,
    baseline_consensus_prob := none, per_book := [], book := none,
    best_book := none, date_simulated := none, raw_sportsbook := [],
    prior_snapshot := none }

/-- The exposure map holding 0.4 units against `rowC3`'s theme. -/
def expC3 : List (String × ℚ) := [("2026-04-02-BOS@NYY-T13:05::Over_total", 2/5)]

theorem rowC3_theme : themeTotalOf rowC3 expC3 = 2/5 := by
  have hk : exposureKeyOf rowC3 = "2026-04-02-BOS@NYY-T13:05::Over_total" := by
    decide
  simp [themeTotalOf, hk, expC3, lookupA]

theorem rowC3_gates :
    oddsOutB rowC3 = false ∧ lowEvB rowC3 (1/20) = false
    ∧ notConfirmedB rowC3 expC3 none none = false
    ∧ timeBlockedB rowC3 = false := by
  refine ⟨by decide, ?_, notConfirmedB_none rowC3 expC3, by decide⟩
  apply lowEvB_eval
  have hfrac : evThresholdFrac rowC3.market (1/20) = 1/20 := by rfl
  rw [hfrac]
  simp [rowC3]
  norm_num

/-- The top-up delta the code computes for `rowC3` under `expC3`. -/
theorem rowC3_delta :
    round_stake (round_stake (rowC3.raw_kelly * (1/4)) - themeTotalOf rowC3 expC3)
      = 1/10 := by
  rw [rowC3_theme]
  have h1 : round_stake (rowC3.raw_kelly * (1/4)) = ((50:ℤ):ℚ)/100 := by
    apply round_stake_eval
    simp [rowC3]
    norm_num
  rw [h1]
  have h2 : round_stake (((50:ℤ):ℚ)/100 - 2/5) = ((10:ℤ):ℚ)/100 := by
    apply round_stake_eval
    norm_num
  rw [h2]
  norm_num

/-- C3, counterexample: for `rowC3` (raw_kelly 2, theme exposure 0.4) the
claim's delta `raw_kelly − theme_exposure = 1.6 ≥ 0.5` demands an accepted
top-up, but the code's delta is `round(0.5 − 0.4) = 0.1` and the row is
rejected with `low_topup`. -/
theorem C3_counterexample :
    (should_log_bet rowC3 expC3 (1/20) none none).skip_reason = some "low_topup"
    ∧ (should_log_bet rowC3 expC3 (1/20) none none).log = false
    ∧ MIN_TOPUP_STAKE ≤ rowC3.raw_kelly - themeTotalOf rowC3 expC3 := by
  obtain ⟨g1, g2, g3, g4⟩ := rowC3_gates
  have h5 : themeTotalOf rowC3 expC3 ≠ 0 := by
    rw [rowC3_theme]; norm_num
  have h6 : round_stake (round_stake (rowC3.raw_kelly * (1/4))
      - themeTotalOf rowC3 expC3) < MIN_TOPUP_STAKE := by
    rw [rowC3_delta]; unfold MIN_TOPUP_STAKE; norm_num
  have h7 : 0 < round_stake (round_stake (rowC3.raw_kelly * (1/4))
      - themeTotalOf rowC3 expC3) := by
    rw [rowC3_delta]; norm_num
  have hev := slb_eval_low_topup rowC3 expC3 (1/20) none none g1 g2 g3 g4 h5 h6 h7
  refine ⟨by rw [hev], by rw [hev], ?_⟩
  rw [rowC3_theme]
  unfold MIN_TOPUP_STAKE
  simp [rowC3]
  norm_num

/-- The concrete accepted-top-up row: `raw_kelly = 8` against theme
exposure of 0.4 units. -/
def rowC3W : Row :=
  { game_id := "2026-04-03-CHC@MIL-T14:20", market := "totals",
    side := "Over 7.5", raw_kelly := 8, ev_percent := some 6,
    hours_to_game := some 5, market_odds := some 100,
    consensus_prob := some (55/100), market_prob := none,
    blended_fv := none, stake := none, sim_prob := none,
    baseline_consensus_prob := none, per_book := [], book := none,
    best_book := none, date_simulated := none, raw_sportsbook := [],
    prior_snapshot := none }

/-- The exposure map holding 0.4 units against `rowC3W`'s theme. -/
def expC3W : List (String × ℚ) := [("2026-04-03-CHC@MIL-T14:20::Over_total", 2/5)]

/-- C3, witness: the amended theorem applied to `rowC3W`, an accepted
top-up of `round(2) − 0.4 = 1.6` units. -/
theorem C3_witness :
    (should_log_bet rowC3W expC3W (1/20) none none).entry_type = "top-up"
    ∧ (should_log_bet rowC3W expC3W (1/20) none none).stake = 8/5 := by
  have htheme : themeTotalOf rowC3W expC3W = 2/5 := by
    have hk : exposureKeyOf rowC3W = "2026-04-03-CHC@MIL-T14:20::Over_total" := by
      decide
    simp [themeTotalOf, hk, expC3W, lookupA]
  have hdelta : round_stake (round_stake (rowC3W.raw_kelly * (1/4))
      - themeTotalOf rowC3W expC3W) = 8/5 := by
    rw [htheme]
    have h1 : round_stake (rowC3W.raw_kelly * (1/4)) = ((200:ℤ):ℚ)/100 := by
      apply round_stake_eval
      simp [rowC3W]
      norm_num
    rw [h1]
    have h2 : round_stake (((200:ℤ):ℚ)/100 - 2/5) = ((160:ℤ):ℚ)/100 := by
      apply round_stake_eval
      norm_num
    rw [h2]
    norm_num
  have g1 : oddsOutB rowC3W = false := by decide
  have g2 : lowEvB rowC3W (1/20) = false := by
    apply lowEvB_eval
    have hfrac : evThresholdFrac rowC3W.market (1/20) = 1/20 := by rfl
    rw [hfrac]
    simp [rowC3W]
    norm_num
  have g4 : timeBlockedB rowC3W = false := by decide
  have h5 : themeTotalOf rowC3W expC3W ≠ 0 := by
    rw [htheme]; norm_num
  have h6 : MIN_TOPUP_STAKE ≤ round_stake (round_stake (rowC3W.raw_kelly * (1/4))
      - themeTotalOf rowC3W expC3W) := by
    rw [hdelta]; unfold MIN_TOPUP_STAKE; norm_num
  have hev := (C3_topup_delta rowC3W expC3W (1/20) none none g1 g2
    (notConfirmedB_none rowC3W expC3W) g4 h5).1 h6
  exact ⟨by rw [hev], by rw [hev]; exact hdelta⟩

/-- C4, amended: `should_log_bet` rejects with `not_confirmed` exactly when
the odds-band and EV gates pass, a prior tracked probability exists for the
bet's key, the observed movement is below `required_move`, and no theme
exposure exists yet.  (The claim omits the prior-probability requirement: a
brand-new key with no tracked baseline is not rejected.)  The
characterization also shows the check runs after the odds/EV gates, before
the time gate, and never fires for a theme with nonzero exposure. -/
theorem C4_not_confirmed_iff (row : Row) (exposure : List (String × ℚ))
    (min_ev : ℚ) (et rt : Option Tracker) :
    (should_log_bet row exposure min_ev et rt).skip_reason = some "not_confirmed"
      ↔ (oddsOutB row = false ∧ lowEvB row min_ev = false
          ∧ (prevProbOf row et rt).isSome = true
          ∧ movementOf row et rt < thresholdOf row
          ∧ themeTotalOf row exposure = 0) := by
  unfold should_log_bet
  by_cases h1 : oddsOutB row
  · simp [h1]
  · by_cases h2 : lowEvB row min_ev
    · simp [h1, h2]
    · by_cases h3 : notConfirmedB row exposure et rt
      · obtain ⟨a, b, c⟩ := (notConfirmedB_iff row exposure et rt).mp h3
        simp [h1, h2, h3, a, b, c]
      · have hns : ¬ ((prevProbOf row et rt).isSome = true
            ∧ movementOf row et rt < thresholdOf row
            ∧ themeTotalOf row exposure = 0) := fun hX =>
          h3 ((notConfirmedB_iff row exposure et rt).mpr hX)
        simp only [Bool.not_eq_true] at h1 h2 h3
        simp only [h1, h2, h3, Bool.false_eq_true, if_false]
        split_ifs <;> simp [hns]

/-- The concrete unconfirmed-but-accepted row: no tracker entry exists for
its key, so no prior probability is available. -/
def rowC4 : Row :=
  { game_id := "2026-04-04-SD@SF-T16:05", market := "totals",
    side := "Over 8.0", raw_kelly := 8, ev_percent := some 6,
    hours_to_game := some 5, market_odds := some 100,
    consensus_prob := some (48/100), market_prob := none,
    blended_fv := none, stake := none, sim_prob := none,
    baseline_consensus_prob := none, per_book := [], book := none,
    best_book := none, date_simulated := none, raw_sportsbook := [],
    prior_snapshot := none }

/-- C4, counterexample: `rowC4` has zero theme exposure and observed
movement 0, below the positive required movement, yet `should_log_bet` does
not reject it with `not_confirmed` (it is accepted as a first bet), because
no prior tracked probability exists. -/
theorem C4_counterexample :
    (should_log_bet rowC4 [] (1/20) none none).skip_reason ≠ some "not_confirmed"
    ∧ (should_log_bet rowC4 [] (1/20) none none).log = true
    ∧ movementOf rowC4 none none = 0
    ∧ movementOf rowC4 none none < thresholdOf rowC4
    ∧ themeTotalOf rowC4 [] = 0 := by
  have g1 : oddsOutB rowC4 = false := by decide
  have g2 : lowEvB rowC4 (1/20) = false := by
    apply lowEvB_eval
    have hfrac : evThresholdFrac rowC4.market (1/20) = 1/20 := by rfl
    rw [hfrac]
    simp [rowC4]
    norm_num
  have g4 : timeBlockedB rowC4 = false := by decide
  have g5 : themeTotalOf rowC4 [] = 0 := by simp [themeTotalOf, lookupA]
  have hmove : movementOf rowC4 none none = 0 := by
    simp [movementOf, prevProbOf, priorEntryOf]
  have hthr : thresholdOf rowC4 = 9/2000 := by
    have hf : fullGameMarket (some "totals") = true := by decide
    have hv : volatileSegmentMarket (some "totals") = false := by decide
    norm_num [thresholdOf, rowC4, bookCountOf, pyOrQ, required_market_move,
      hf, hv, pyMax]
  have h6 : MIN_FIRST_STAKE ≤ round_stake (round_stake (rowC4.raw_kelly * (1/4))) := by
    have h1 : round_stake (rowC4.raw_kelly * (1/4)) = ((200:ℤ):ℚ)/100 := by
      apply round_stake_eval
      simp [rowC4]
      norm_num
    rw [h1]
    have h2 : round_stake (((200:ℤ):ℚ)/100) = ((200:ℤ):ℚ)/100 := by
      apply round_stake_eval
      norm_num
    rw [h2]
    unfold MIN_FIRST_STAKE
    norm_num
  have hev := slb_eval_first rowC4 [] (1/20) none none g1 g2
    (notConfirmedB_none rowC4 []) g4 g5 h6
  refine ⟨by rw [hev]; simp, by rw [hev], hmove, ?_, g5⟩
  rw [hmove, hthr]
  norm_num

/-! ## Claim C6: movement reporting -/

/-- The `consensus_move` computation of the batch logger
(src/cli/log_betting_evals.py lines 2773-2778): current consensus
probability (market-probability fallback) minus the row's baseline, rounded
to five decimal places; 0 when either side is unavailable. -/
def consensus_move (row : Row) : ℚ :=
  match row.consensus_prob <|> row.market_prob, row.baseline_consensus_prob with
  | some c, some b => pyRoundDigits 5 (c - b)
  | _, _ => 0

/-- Python `round` lands within half a unit of its argument. -/
theorem abs_pyRound_sub_le (y : ℚ) : |(pyRound y : ℚ) - y| ≤ 1/2 := by
  have h1 : (⌊y⌋ : ℚ) ≤ y := Int.floor_le y
  have h2 : y < ⌊y⌋ + 1 := Int.lt_floor_add_one y
  unfold pyRound
  split_ifs with ha hb hc
  all_goals rw [abs_le]
  all_goals push_cast
  all_goals constructor
  all_goals linarith

/-- Rounding to five decimal places moves a value by at most `5e-6`. -/
theorem abs_pyRoundDigits5_sub_le (x : ℚ) :
    |pyRoundDigits 5 x - x| ≤ 1/200000 := by
  unfold pyRoundDigits
  have h10 : ((10:ℚ)^(5:ℕ)) = 100000 := by norm_num
  rw [h10]
  have h := abs_pyRound_sub_le (x * 100000)
  have heq : (pyRound (x * 100000) : ℚ)/100000 - x
      = ((pyRound (x * 100000) : ℚ) - x * 100000) / 100000 := by ring
  rw [heq, abs_div, abs_of_pos (show (0:ℚ) < 100000 by norm_num)]
  calc |(pyRound (x * 100000) : ℚ) - x * 100000| / 100000
      ≤ (1/2) / 100000 := by gcongr
    _ = 1/200000 := by norm_num

/-- C6, amended: for every evaluation passing the odds and EV gates, the
reported movement equals the current consensus probability minus the *prior
tracker entry's* stored probability (its `consensus_prob`, falling back to
its `market_prob`) — not the baseline — and 0 when either side is missing;
the batch logger's `consensus_move` equals current minus baseline only up to
its five-decimal rounding, i.e. within `5e-6`. -/
theorem C6_movement_formula :
    (∀ (row : Row) (exposure : List (String × ℚ)) (min_ev : ℚ)
        (et rt : Option Tracker),
      oddsOutB row = false → lowEvB row min_ev = false →
      (should_log_bet row exposure min_ev et rt).movement =
        (match (priorEntryOf row et rt).bind
            (fun e => e.consensus_prob <|> e.market_prob),
            row.consensus_prob <|> row.market_prob with
         | some p, some c => c - p
         | _, _ => 0))
    ∧ (∀ (row : Row) (c b : ℚ),
        (row.consensus_prob <|> row.market_prob) = some c →
        row.baseline_consensus_prob = some b →
        |consensus_move row - (c - b)| ≤ 1/200000) := by
  constructor
  · intro row exposure min_ev et rt h1 h2
    have hrhs : (match (priorEntryOf row et rt).bind
          (fun e => e.consensus_prob <|> e.market_prob),
          row.consensus_prob <|> row.market_prob with
        | some p, some c => c - p
        | _, _ => 0) = movementOf row et rt := rfl
    rw [hrhs]
    unfold should_log_bet
    simp only [h1, h2, Bool.false_eq_true, if_false]
    split_ifs <;> rfl
  · intro row c b hc hb
    unfold consensus_move
    rw [hc, hb]
    exact abs_pyRoundDigits5_sub_le (c - b)

/-- The tracker entry behind `rowC6`: the baseline is 0.45 but the last
tracked market probability has already drifted to 0.46. -/
def entC6 : TrackerEntry :=
  { ev_percent := none, blended_fv := none, market_odds := none,
    stake := none, sim_prob := none, market_prob := some (46/100),
    consensus_prob := none, date_simulated := none, best_book := none,
    raw_sportsbook := [], prev_raw_sportsbook := [],
    baseline_consensus_prob := some (45/100) }

/-- The concrete drifted-baseline row. -/
def rowC6 : Row :=
  { game_id := "2026-04-05-SEA@TEX-T18:40", market := "totals",
    side := "Over 8.5", raw_kelly := 8, ev_percent := some 6,
    hours_to_game := some 5, market_odds := some 100,
    consensus_prob := some (47/100), market_prob := none,
    blended_fv := none, stake := none, sim_prob := none,
    baseline_consensus_prob := none, per_book := [], book := none,
    best_book := none, date_simulated := none, raw_sportsbook := [],
    prior_snapshot := none }

/-- The reference tracker holding `entC6` under `rowC6`'s key. -/
def trkC6 : Tracker :=
  [("2026-04-05-SEA@TEX-T18:40:totals:Over 8.5", entC6)]

theorem rowC6_movement : movementOf rowC6 none (some trkC6) = 1/100 := by
  have hk : tKeyOf rowC6 = "2026-04-05-SEA@TEX-T18:40:totals:Over 8.5" := by
    decide
  simp only [movementOf, prevProbOf, priorEntryOf, currProbOf, hk]
  simp [trkC6, entC6, lookupA]
  norm_num [rowC6]

/-- C6, counterexample: for `rowC6` under `trkC6` the reported movement is
`0.47 − 0.46 = 0.01`, while current minus the baseline (the first-observed
value, 0.45) is `0.02`; the difference far exceeds the claimed `1e-6`
tolerance. -/
theorem C6_counterexample :
    (should_log_bet rowC6 [] (1/20) none (some trkC6)).movement = 1/100
    ∧ currProbOf rowC6 = some (47/100)
    ∧ (lookupA (tKeyOf rowC6) trkC6).bind TrackerEntry.baseline_consensus_prob
        = some (45/100)
    ∧ 1/1000000 < |(1:ℚ)/100 - (47/100 - 45/100)| := by
  have hk : tKeyOf rowC6 = "2026-04-05-SEA@TEX-T18:40:totals:Over 8.5" := by
    decide
  have hthr : thresholdOf rowC6 = 9/2000 := by
    have hf : fullGameMarket (some "totals") = true := by decide
    have hv : volatileSegmentMarket (some "totals") = false := by decide
    norm_num [thresholdOf, rowC6, bookCountOf, pyOrQ, required_market_move,
      hf, hv, pyMax]
  have hnlt : ¬ (movementOf rowC6 none (some trkC6) < thresholdOf rowC6) := by
    rw [rowC6_movement, hthr]
    norm_num
  have g1 : oddsOutB rowC6 = false := by decide
  have g2 : lowEvB rowC6 (1/20) = false := by
    apply lowEvB_eval
    have hfrac : evThresholdFrac rowC6.market (1/20) = 1/20 := by rfl
    rw [hfrac]
    simp [rowC6]
    norm_num
  have g3 : notConfirmedB rowC6 [] none (some trkC6) = false := by
    simp [notConfirmedB, hnlt]
  have g4 : timeBlockedB rowC6 = false := by decide
  have g5 : themeTotalOf rowC6 [] = 0 := by simp [themeTotalOf, lookupA]
  have h6 : MIN_FIRST_STAKE ≤ round_stake (round_stake (rowC6.raw_kelly * (1/4))) := by
    have h1 : round_stake (rowC6.raw_kelly * (1/4)) = ((200:ℤ):ℚ)/100 := by
      apply round_stake_eval
      simp [rowC6]
      norm_num
    rw [h1]
    have h2 : round_stake (((200:ℤ):ℚ)/100) = ((200:ℤ):ℚ)/100 := by
      apply round_stake_eval
      norm_num
    rw [h2]
    unfold MIN_FIRST_STAKE
    norm_num
  have hev := slb_eval_first rowC6 [] (1/20) none (some trkC6) g1 g2 g3 g4 g5 h6
  have habs : |(1:ℚ)/100 - (47/100 - 45/100)| = 1/100 := by
    rw [show (1:ℚ)/100 - (47/100 - 45/100) = -(1/100) from by norm_num, abs_neg]
    exact abs_of_pos (by norm_num)
  refine ⟨?_, by simp [currProbOf, rowC6], ?_, by rw [habs]; norm_num⟩
  · rw [hev]
    exact rowC6_movement
  · rw [hk]
    simp [trkC6, entC6, lookupA]

/-- `rowC6` with its baseline populated, as the batch logger sees it. -/
def rowC6b : Row :=
  { rowC6 with baseline_consensus_prob := some (45/100) }

/-- C6, witness: the amended theorem applied to `rowC6` (first conjunct) and
to `rowC6b`, whose consensus is 0.47 and baseline 0.45 (second conjunct). -/
theorem C6_witness :
    (should_log_bet rowC6 [] (1/20) none (some trkC6)).movement =
      (match (priorEntryOf rowC6 none (some trkC6)).bind
          (fun e => e.consensus_prob <|> e.market_prob),
          rowC6.consensus_prob <|> rowC6.market_prob with
       | some p, some c => c - p
       | _, _ => 0)
    ∧ |consensus_move rowC6b - (47/100 - 45/100)| ≤ 1/200000 := by
  constructor
  · refine C6_movement_formula.1 rowC6 [] (1/20) none (some trkC6) (by decide) ?_
    apply lowEvB_eval
    have hfrac : evThresholdFrac rowC6.market (1/20) = 1/20 := by rfl
    rw [hfrac]
    simp [rowC6]
    norm_num
  · refine C6_movement_formula.2 rowC6b (47/100) (45/100) ?_ ?_
    · simp [rowC6b, rowC6]
    · simp [rowC6b]

/-! ## Claim C7: structured outcomes vs. the broken import -/

/-- The names bound at the top level of src/core/confirmation_utils.py:
its imports (lines 4-7) and its own definitions (lines 22-141). -/
def confirmation_utils_module_names : List String :=
  ["Optional", "DEBUG_MODE", "VERBOSE_MODE", "kelly_fraction", "__all__",
   "VERBOSE", "MIN_TOPUP_STAKE", "extract_book_count",
   "required_market_move", "print_threshold_table",
   "evaluate_late_confirmed_bet"]

/-- The names src/core/should_log_bet.py line 28 imports from
`core.confirmation_utils`. -/
def should_log_bet_confirmation_imports : List String :=
  ["required_market_move", "book_agreement_score"]

/-- C7: the import on line 28 of src/core/should_log_bet.py requests
`book_agreement_score`, which `core.confirmation_utils` never defines, so
importing the module raises `ImportError` before any evaluation can return a
structured skip reason (and line 403 additionally passes an unsupported
`agreement` keyword to `required_market_move`). -/
theorem C7_import_mismatch :
    "book_agreement_score" ∈ should_log_bet_confirmation_imports
    ∧ "book_agreement_score" ∉ confirmation_utils_module_names := by
  decide

/-! ## `core/market_movement_tracker.py` -/

/-- Python `x or y` on optional strings (`None` and `""` are falsy). -/
def pyOrStr (a b : Option String) : Option String :=
  match a with
  | some s => if s = "" then b else some s
  | none => b

/-- `MOVEMENT_THRESHOLDS` (src/core/market_movement_tracker.py
lines 17-24). -/
def MOVEMENT_THRESHOLDS : List (String × ℚ) :=
  [("ev_percent", 1/2), ("market_prob", 1/100000), ("blended_fv", 1),
   ("market_odds", 1), ("stake", 1/10), ("sim_prob", 1/10)]

/-- `detect_baseline_movement` (src/core/market_movement_tracker.py
lines 27-40): exact comparison against the baseline; any conversion
failure yields `"same"`. -/
def detect_baseline_movement (curr baseline : Option ℚ) : String :=
  match curr, baseline with
  | some c, some b => if b < c then "up" else if c < b then "down" else "same"
  | _, _ => "same"

/-- `_compare_change` (src/core/market_movement_tracker.py lines 45-53). -/
def compare_change (curr prev : Option ℚ) (threshold : ℚ) : String :=
  match curr, prev with
  | some c, some p =>
    if |c - p| < threshold then "same"
    else if p < c then "better" else "worse"
  | _, _ => "same"

/-- `_compare_odds` (src/core/market_movement_tracker.py lines 56-65). -/
def compare_odds (curr prev : Option ℚ) (threshold : ℚ) : String :=
  match curr, prev with
  | some c, some p =>
    match decimal_odds c, decimal_odds p with
    | some dc, some dp =>
      if |dc - dp| < threshold then "same"
      else if dp < dc then "better" else "worse"
    | _, _ => "same"
  | _, _ => "same"

/-- `_compare_fv` (src/core/market_movement_tracker.py lines 68-70). -/
def compare_fv (curr prev : Option ℚ) (threshold : ℚ) : String :=
  match compare_odds curr prev threshold with
  | "better" => "worse"
  | "worse" => "better"
  | s => s

/-- The movement classification `dict` returned by
`detect_market_movement`. -/
structure Movement where
  is_new : Bool
  ev_movement : String
  mkt_movement : String
  fv_movement : String
  odds_movement : String
  stake_movement : String
  sim_movement : String
deriving DecidableEq, Repr

/-- `detect_market_movement` (src/core/market_movement_tracker.py lines
73-120).  The `market_prob` field is compared against the row's own
`baseline_consensus_prob` with the dead-zone threshold (the conservative
`0.01` when `hours_to_game` is missing); the remaining fields are compared
against the prior entry with their `MOVEMENT_THRESHOLDS`. -/
def detect_market_movement (current : Row) (prior : Option TrackerEntry) :
    Movement :=
  let mkt :=
    let threshold :=
      match current.hours_to_game with
      | none => (1:ℚ)/100
      | some _ => market_prob_increase_threshold
    match current.market_prob, current.baseline_consensus_prob with
    | some c, some b =>
      if |c - b| < threshold then "same"
      else if 0 < c - b then "up" else "down"
    | _, _ => "same"
  { is_new := prior.isNone
    ev_movement := compare_change current.ev_percent
      (prior.bind (fun e => e.ev_percent))
      ((lookupA "ev_percent" MOVEMENT_THRESHOLDS).getD (1/1000))
    mkt_movement := mkt
    fv_movement := compare_fv current.blended_fv
      (prior.bind (fun e => e.blended_fv))
      ((lookupA "blended_fv" MOVEMENT_THRESHOLDS).getD (1/1000))
    odds_movement := compare_odds current.market_odds
      (prior.bind (fun e => e.market_odds))
      ((lookupA "market_odds" MOVEMENT_THRESHOLDS).getD (1/1000))
    stake_movement := compare_change current.stake
      (prior.bind (fun e => e.stake))
      ((lookupA "stake" MOVEMENT_THRESHOLDS).getD (1/1000))
    sim_movement := compare_change current.sim_prob
      (prior.bind (fun e => e.sim_prob))
      ((lookupA "sim_prob" MOVEMENT_THRESHOLDS).getD (1/1000)) }

/-- The tracker key of an entry (src/core/market_movement_tracker.py
lines 144-145). -/
def trackKeyOf (entry : Row) : String :=
  canonical_game_id entry.game_id ++ ":" ++ stripStr entry.market
    ++ ":" ++ stripStr entry.side

/-- `track_and_update_market_movement` (src/core/market_movement_tracker.py
lines 123-248).  The Python function mutates `tracker` (and decorates
`entry`); the embedding returns the movement together with the updated
tracker. -/
def track_and_update_market_movement (entry : Row) (tracker : Tracker)
    (reference_tracker : Option Tracker) : Movement × Tracker :=
  let key := trackKeyOf entry
  let base := match reference_tracker with | some t => t | none => tracker
  let prior_entry := lookupA key base
  let book := pyOrStr entry.book entry.best_book
  let current_raw := entry.raw_sportsbook
  let prev_raw :=
    match prior_entry with
    | some p =>
      if p.raw_sportsbook ≠ [] then p.raw_sportsbook else p.prev_raw_sportsbook
    | none => []
  let prev_market_odds := book.bind (fun bk => lookupA bk prev_raw)
  let prior_for_detect :=
    prior_entry.map (fun p => { p with market_odds := prev_market_odds })
  let movement := detect_market_movement entry prior_for_detect
  let existing_baseline :=
    match (lookupA key tracker).bind (fun e => e.baseline_consensus_prob) with
    | some b => some b
    | none => prior_entry.bind (fun e => e.baseline_consensus_prob)
  let baseline_missing :=
    existing_baseline.isNone && entry.baseline_consensus_prob.isSome
  if prior_entry.isSome && (lookupA key tracker).isSome
      && (movement.mkt_movement == "same") && (movement.ev_movement == "same")
      && (movement.fv_movement == "same") && (movement.odds_movement == "same")
      && (movement.stake_movement == "same") && (movement.sim_movement == "same")
      && !baseline_missing then
    (movement, tracker)
  else
    let tracker_entry : TrackerEntry :=
      { ev_percent := entry.ev_percent, blended_fv := entry.blended_fv,
        market_odds := entry.market_odds, stake := entry.stake,
        sim_prob := entry.sim_prob, market_prob := entry.market_prob,
        consensus_prob := none,
        date_simulated := entry.date_simulated, best_book := entry.best_book,
        raw_sportsbook := current_raw, prev_raw_sportsbook := prev_raw,
        baseline_consensus_prob :=
          match existing_baseline with
          | some b => some b
          | none => entry.baseline_consensus_prob }
    (movement, setA key tracker_entry tracker)

/-! ## `core/snapshot_core.py`: baseline repair -/

/-- The tracker key used by `ensure_baseline_consensus_prob`
(src/core/snapshot_core.py lines 157-158; no stripping here, unlike the
movement tracker). -/
def ensureKeyOf (row : Row) : String :=
  canonical_game_id row.game_id ++ ":" ++ row.market ++ ":" ++ row.side

/-- The per-row body of `ensure_baseline_consensus_prob`
(src/core/snapshot_core.py lines 153-174). -/
def ensure_baseline_row (tracker : Tracker) (row : Row) : Row :=
  if row.baseline_consensus_prob.isSome then row
  else
    let key := ensureKeyOf row
    let b1 : Option ℚ :=
      match tracker with
      | [] => none
      | _ => (lookupA key tracker).bind (fun e => e.baseline_consensus_prob)
    let b2 :=
      match b1 with
      | some _ => b1
      | none => row.prior_snapshot.bind (fun p => p.baseline_consensus_prob)
    let b3 :=
      match b2 with
      | some _ => b2
      | none => row.consensus_prob
    { row with baseline_consensus_prob := b3 }

/-- `ensure_baseline_consensus_prob` (src/core/snapshot_core.py lines
147-174); the Python function mutates `rows` in place. -/
def ensure_baseline_consensus_prob (tracker : Tracker) (rows : List Row) :
    List Row :=
  rows.map (ensure_baseline_row tracker)

/-- C5: baseline immutability — once a tracker key holds a non-null
`baseline_consensus_prob`, `track_and_update_market_movement` never changes
it (it rewrites the same value or leaves the tracker untouched), and
`ensure_baseline_consensus_prob` never touches a row whose baseline is
already non-null; both write a baseline only where one was absent. -/
theorem C5_baseline_immutable :
    (∀ (entry : Row) (tracker : Tracker) (ref : Option Tracker)
        (k : String) (b : ℚ),
      (lookupA k tracker).bind (fun e => e.baseline_consensus_prob) = some b →
      (lookupA k (track_and_update_market_movement entry tracker ref).2).bind
        (fun e => e.baseline_consensus_prob) = some b)
    ∧ (∀ (tracker : Tracker) (rows : List Row) (i : ℕ) (b : ℚ),
      ((rows.get? i).bind (fun r => r.baseline_consensus_prob)) = some b →
      (((ensure_baseline_consensus_prob tracker rows).get? i).bind
        (fun r => r.baseline_consensus_prob)) = some b) := by
  constructor
  · intro entry tracker ref k b hb
    unfold track_and_update_market_movement
    simp only []
    split_ifs with hc
    · exact hb
    · by_cases hk : trackKeyOf entry = k
      · subst hk
        rw [lookupA_setA_eq]
        simp [hb]
      · rw [lookupA_setA_ne _ _ hk]
        exact hb
  · intro tracker rows i b hb
    unfold ensure_baseline_consensus_prob
    rw [List.get?_map]
    cases hri : rows.get? i with
    | none => rw [hri] at hb; simp at hb
    | some r =>
      rw [hri] at hb
      simp only [Option.some_bind] at hb
      simp only [Option.map_some']
      unfold ensure_baseline_row
      simp [hb]

/-- A tracker entry holding an established baseline of 0.45. -/
def entT5 : TrackerEntry :=
  { ev_percent := none, blended_fv := none, market_odds := none,
    stake := none, sim_prob := none, market_prob := some (44/100),
    consensus_prob := none, date_simulated := none, best_book := none,
    raw_sportsbook := [], prev_raw_sportsbook := [],
    baseline_consensus_prob := some (45/100) }

/-- A tracker with `entT5` under the key `G5:totals:Over 8.5`. -/
def trkC5 : Tracker := [("G5:totals:Over 8.5", entT5)]

/-- A later poll for the same key, arriving with a *different* baseline
value (0.50) that must not overwrite the stored one. -/
def entryC5 : Row :=
  { game_id := "G5", market := "totals", side := "Over 8.5",
    raw_kelly := 4, ev_percent := some 7, hours_to_game := some 4,
    market_odds := some 105, consensus_prob := some (48/100),
    market_prob := some (48/100), blended_fv := none, stake := none,
    sim_prob := none, baseline_consensus_prob := some (50/100),
    per_book := [], book := none, best_book := none,
    date_simulated := none, raw_sportsbook := [], prior_snapshot := none }

/-- A snapshot row whose baseline is already populated (0.60). -/
def rowC5 : Row :=
  { game_id := "G5", market := "totals", side := "Under 8.5",
    raw_kelly := 1, ev_percent := some 6, hours_to_game := some 4,
    market_odds := some 100, consensus_prob := some (61/100),
    market_prob := none, blended_fv := none, stake := none,
    sim_prob := none, baseline_consensus_prob := some (60/100),
    per_book := [], book := none, best_book := none,
    date_simulated := none, raw_sportsbook := [], prior_snapshot := none }

/-- C5, witness: the invariant applied to `trkC5`/`entryC5` (the stored
baseline 0.45 survives an update carrying 0.50) and to `rowC5` (its 0.60
baseline survives the repair pass). -/
theorem C5_witness :
    ((lookupA "G5:totals:Over 8.5" trkC5).bind
        (fun e => e.baseline_consensus_prob) = some (45/100))
    ∧ ((lookupA "G5:totals:Over 8.5"
        (track_and_update_market_movement entryC5 trkC5 none).2).bind
        (fun e => e.baseline_consensus_prob) = some (45/100))
    ∧ (((ensure_baseline_consensus_prob trkC5 [rowC5]).get? 0).bind
        (fun r => r.baseline_consensus_prob) = some (60/100)) := by
  have h1 : (lookupA "G5:totals:Over 8.5" trkC5).bind
      (fun e => e.baseline_consensus_prob) = some (45/100) := by
    simp [trkC5, entT5, lookupA]
  have h2 : ((([rowC5] : List Row).get? 0).bind
      (fun r => r.baseline_consensus_prob)) = some (60/100) := by
    simp [rowC5]
  exact ⟨h1, C5_baseline_immutable.1 entryC5 trkC5 none _ _ h1,
    C5_baseline_immutable.2 trkC5 [rowC5] 0 (60/100) h2⟩

/-! ## Claim C9: the movement direction classifiers -/

/-- C9, counterexample: `detect_baseline_movement` applies no epsilon
dead-zone — a drift of `1e-5`, well inside the claimed `~1e-4` dead-zone,
is classified `"up"`, not `"same"`. -/
theorem C9_counterexample :
    detect_baseline_movement (some (45001/100000)) (some (45/100)) = "up"
    ∧ |(45001:ℚ)/100000 - 45/100| < market_prob_increase_threshold
    ∧ ("up" : String) ≠ "same" := by
  refine ⟨?_, ?_, by decide⟩
  · unfold detect_baseline_movement
    norm_num
  · rw [show (45001:ℚ)/100000 - 45/100 = 1/100000 from by norm_num,
      abs_of_pos (show (0:ℚ) < 1/100000 from by norm_num)]
    unfold market_prob_increase_threshold
    norm_num

/-- C9, amended: the epsilon dead-zone lives in `detect_market_movement`'s
consensus (`market_prob`-vs-baseline) classification — differences inside
the threshold (the spec-modelled `1e-4`, or the conservative `0.01` without
`hours_to_game`) give `"same"`, above gives `"up"`, below gives `"down"` —
while `detect_baseline_movement` classifies by exact comparison with no
dead-zone at all. -/
theorem C9_direction_classifier :
    (∀ (current : Row) (prior : Option TrackerEntry) (c b : ℚ),
      current.market_prob = some c →
      current.baseline_consensus_prob = some b →
      current.hours_to_game.isSome = true →
      ((|c - b| < market_prob_increase_threshold →
          (detect_market_movement current prior).mkt_movement = "same")
       ∧ (market_prob_increase_threshold ≤ c - b →
          (detect_market_movement current prior).mkt_movement = "up")
       ∧ (c - b ≤ -market_prob_increase_threshold →
          (detect_market_movement current prior).mkt_movement = "down")))
    ∧ (∀ c b : ℚ,
        (b < c → detect_baseline_movement (some c) (some b) = "up")
        ∧ (c < b → detect_baseline_movement (some c) (some b) = "down")
        ∧ (c = b → detect_baseline_movement (some c) (some b) = "same")) := by
  constructor
  · intro current prior c b hc hb hh
    obtain ⟨h, hsome⟩ := Option.isSome_iff_exists.mp hh
    unfold detect_market_movement
    simp only [hc, hb, hsome]
    have hpos : (0:ℚ) < market_prob_increase_threshold := by
      unfold market_prob_increase_threshold; norm_num
    refine ⟨?_, ?_, ?_⟩
    · intro hlt
      simp [hlt]
    · intro hge
      have h1 : ¬ |c - b| < market_prob_increase_threshold := by
        rw [not_lt]
        calc market_prob_increase_threshold ≤ c - b := hge
          _ ≤ |c - b| := le_abs_self _
      have h2 : 0 < c - b := by linarith
      simp [h1, h2]
    · intro hle
      have h1 : ¬ |c - b| < market_prob_increase_threshold := by
        rw [not_lt]
        calc market_prob_increase_threshold ≤ -(c - b) := by linarith
          _ ≤ |c - b| := neg_le_abs _
      have h2 : ¬ (0 < c - b) := by linarith
      simp [h1, h2]
  · intro c b
    unfold detect_baseline_movement
    refine ⟨fun h => by simp [h], fun h => ?_, fun h => ?_⟩
    · have h2 : ¬ b < c := by linarith
      simp [h, h2]
    · subst h
      simp

/-- The concrete moved row for the C9 witness: consensus drifted a full
cent above its baseline. -/
def rowC9 : Row :=
  { game_id := "G9", market := "totals", side := "Over 8.5",
    raw_kelly := 4, ev_percent := some 7, hours_to_game := some 5,
    market_odds := some 100, consensus_prob := some (46/100),
    market_prob := some (46/100), blended_fv := none, stake := none,
    sim_prob := none, baseline_consensus_prob := some (45/100),
    per_book := [], book := none, best_book := none,
    date_simulated := none, raw_sportsbook := [], prior_snapshot := none }

/-- C9, witness: the amended classifier applied to `rowC9` (a `0.01` move
is `"up"`) and to a baseline comparison. -/
theorem C9_witness :
    (detect_market_movement rowC9 none).mkt_movement = "up"
    ∧ detect_baseline_movement (some 1) (some 0) = "up" := by
  constructor
  · refine ((C9_direction_classifier.1 rowC9 none (46/100) (45/100)
      (by simp [rowC9]) (by simp [rowC9]) (by simp [rowC9])).2.1 ?_)
    unfold market_prob_increase_threshold
    norm_num
  · exact (C9_direction_classifier.2 1 0).1 (by norm_num)

/-! ## Claim C8: the snapshot write/validate/rename sequence
(src/core/unified_snapshot_generator.py lines 672-707) -/

/-- A file system: mapping path → contents. -/
abbrev FS := List (String × String)

/-- Writing a whole file (`open(..., "w")` + write). -/
def fsWrite (fs : FS) (p c : String) : FS := setA p c fs

/-- `shutil.move` / `os.rename`: move the contents of `src` to `dst`. -/
def fsMove (fs : FS) (src dst : String) : FS :=
  match lookupA src fs with
  | some c => setA dst c (eraseA src fs)
  | none => fs

/-- The snapshot writer's tail (src/core/unified_snapshot_generator.py
lines 672-707) as the sequence of file-system states a concurrent reader
could observe: write the serialized rows to `tmp`; parse-validate `tmp`
(`parses` abstracts `json.load` succeeding); on failure move `tmp` to the
quarantine path `bad` and return; on success remove any existing `final`
and rename `tmp` onto it. -/
def snapshot_write_states (fs : FS) (tmp final bad content : String)
    (parses : String → Bool) : List FS :=
  let s1 := fsWrite fs tmp content
  if parses ((lookupA tmp s1).getD "") then
    let s2 := eraseA final s1
    [fs, s1, s2, fsMove s2 tmp final]
  else
    [fs, s1, fsMove s1 tmp bad]

/-- The final file-system state of the snapshot writer's tail. -/
def snapshot_write (fs : FS) (tmp final bad content : String)
    (parses : String → Bool) : FS :=
  let s1 := fsWrite fs tmp content
  if parses ((lookupA tmp s1).getD "") then fsMove (eraseA final s1) tmp final
  else fsMove s1 tmp bad

/-- C8: provided the paths are distinct and whatever sits at the final path
initially parses, (a) in every observable intermediate state the final path
holds parseable content or nothing — never a non-validated write; (b) when
validation fails the temporary file is quarantined at the `bad` path and
the final path is untouched; (c) when validation succeeds the final path
ends up holding exactly the validated content. -/
theorem C8_snapshot_write_safe (fs : FS) (tmp final bad content : String)
    (parses : String → Bool)
    (htf : tmp ≠ final) (hbf : bad ≠ final)
    (hgood : ∀ c, lookupA final fs = some c → parses c = true) :
    (∀ s ∈ snapshot_write_states fs tmp final bad content parses,
      ∀ c, lookupA final s = some c → parses c = true)
    ∧ (parses content = false →
        lookupA final (snapshot_write fs tmp final bad content parses)
          = lookupA final fs
        ∧ lookupA bad (snapshot_write fs tmp final bad content parses)
          = some content)
    ∧ (parses content = true →
        lookupA final (snapshot_write fs tmp final bad content parses)
          = some content) := by
  have hw : lookupA tmp (setA tmp content fs) = some content :=
    lookupA_setA_eq tmp content fs
  have hcond : ((lookupA tmp (setA tmp content fs)).getD "") = content := by
    rw [hw]
    rfl
  have hfin1 : lookupA final (setA tmp content fs) = lookupA final fs :=
    lookupA_setA_ne content fs htf
  have hmoveT : fsMove (eraseA final (setA tmp content fs)) tmp final
      = setA final content (eraseA tmp (eraseA final (setA tmp content fs))) := by
    unfold fsMove
    rw [lookupA_eraseA_ne _ (Ne.symm htf), hw]
  have hmoveF : fsMove (setA tmp content fs) tmp bad
      = setA bad content (eraseA tmp (setA tmp content fs)) := by
    unfold fsMove
    rw [hw]
  have hfinmvF : lookupA final (fsMove (setA tmp content fs) tmp bad)
      = lookupA final fs := by
    rw [hmoveF, lookupA_setA_ne _ _ hbf, lookupA_eraseA_ne _ htf, hfin1]
  have hswT : parses content = true →
      snapshot_write fs tmp final bad content parses
        = fsMove (eraseA final (setA tmp content fs)) tmp final := by
    intro hv
    simp only [snapshot_write, fsWrite, hcond, hv, if_true]
  have hswF : parses content = false →
      snapshot_write fs tmp final bad content parses
        = fsMove (setA tmp content fs) tmp bad := by
    intro hv
    simp only [snapshot_write, fsWrite, hcond, hv, Bool.false_eq_true, if_false]
  have hstT : parses content = true →
      snapshot_write_states fs tmp final bad content parses
        = [fs, setA tmp content fs, eraseA final (setA tmp content fs),
           fsMove (eraseA final (setA tmp content fs)) tmp final] := by
    intro hv
    simp only [snapshot_write_states, fsWrite, hcond, hv, if_true]
  have hstF : parses content = false →
      snapshot_write_states fs tmp final bad content parses
        = [fs, setA tmp content fs, fsMove (setA tmp content fs) tmp bad] := by
    intro hv
    simp only [snapshot_write_states, fsWrite, hcond, hv, Bool.false_eq_true,
      if_false]
  refine ⟨?_, ?_, ?_⟩
  · intro s hs c hc
    by_cases hv : parses content = true
    · rw [hstT hv] at hs
      simp only [List.mem_cons, List.not_mem_nil, or_false] at hs
      rcases hs with rfl | rfl | rfl | rfl
      · exact hgood c hc
      · rw [hfin1] at hc
        exact hgood c hc
      · rw [lookupA_eraseA_eq] at hc
        exact absurd hc (by simp)
      · rw [hmoveT, lookupA_setA_eq] at hc
        obtain rfl : content = c := by injection hc
        exact hv
    · have hv2 : parses content = false := by
        revert hv
        cases parses content <;> simp
      rw [hstF hv2] at hs
      simp only [List.mem_cons, List.not_mem_nil, or_false] at hs
      rcases hs with rfl | rfl | rfl
      · exact hgood c hc
      · rw [hfin1] at hc
        exact hgood c hc
      · rw [hfinmvF] at hc
        exact hgood c hc
  · intro hcf
    rw [hswF hcf]
    exact ⟨hfinmvF, by rw [hmoveF, lookupA_setA_eq]⟩
  · intro hct
    rw [hswT hct, hmoveT, lookupA_setA_eq]

/-- The demo JSON validator for the C8 witness. -/
def demoParses (s : String) : Bool := strStartsWith s "["

/-- The initial file system for the C8 witness: a good snapshot already at
the final path. -/
def fsC8 : FS := [("backtest/market_snapshot_T.json", "[\x7b\x7d]")]

/-- C8, witness: the write/validate/rename theorem applied to a concrete
valid write over an existing good snapshot. -/
theorem C8_witness :
    lookupA "backtest/market_snapshot_T.json"
      (snapshot_write fsC8 "backtest/market_snapshot_T.tmp"
        "backtest/market_snapshot_T.json"
        "backtest/market_snapshot_T.json.bad.json" "[1]" demoParses)
      = some "[1]" := by
  refine (C8_snapshot_write_safe fsC8 "backtest/market_snapshot_T.tmp"
    "backtest/market_snapshot_T.json" "backtest/market_snapshot_T.json.bad.json"
    "[1]" demoParses (by decide) (by decide) ?_).2.2 (by decide)
  intro c hc
  have h0 : lookupA "backtest/market_snapshot_T.json" fsC8
      = some "[\x7b\x7d]" := by decide
  rw [h0] at hc
  obtain rfl : ("[\x7b\x7d]" : String) = c := by injection hc
  decide

/-! ## Claim C10: `_merge_persistent_fields`
(src/core/unified_snapshot_generator.py lines 304-339) -/

/-- A JSON-ish field value of a dynamic snapshot row (list payloads of the
merged fields, such as `snapshot_roles`, are string lists). -/
inductive Val where
  | vnone : Val
  | vbool : Bool → Val
  | vstr : String → Val
  | vnum : ℚ → Val
  | vlist : List String → Val
deriving DecidableEq, Repr

/-- A dynamic snapshot row, as the generator sees it. -/
abbrev PRow := List (String × Val)

/-- `row.get(field)`: absent keys read as `None`. -/
def getVal (r : PRow) (f : String) : Val := (lookupA f r).getD Val.vnone

/-- The blank test on line 338: `val is None or val is False or
val == []`. -/
def isBlank : Val → Bool
  | Val.vnone => true
  | Val.vbool b => !b
  | Val.vlist l => l.isEmpty
  | _ => false

/-- The field list of lines 324-334. -/
def persistentFields : List String :=
  ["queued", "queued_ts", "logged", "logged_ts", "skip_reason",
   "baseline_consensus_prob", "movement_confirmed", "snapshot_roles",
   "theme_key"]

/-- One iteration of the field loop (lines 335-339): `snapshot_roles` is
skipped; otherwise the prior value is copied when the field exists in the
prior row and the fresh value is blank. -/
def mergeField (prior : PRow) (row : PRow) (f : String) : PRow :=
  if f = "snapshot_roles" then row
  else if containsA prior f && isBlank (getVal row f) then
    setA f (getVal prior f) row
  else row

/-- `_merge_persistent_fields` for one fresh row (lines 309-339): stamp the
heartbeat timestamp, then run the field loop against the prior row when one
exists (`if prior:` — an empty prior dict is falsy). -/
def merge_persistent_row (ts : String) (row : PRow) (prior : Option PRow) :
    PRow :=
  let row1 := setA "last_seen_loop_ts" (Val.vstr ts) row
  match prior with
  | none => row1
  | some p =>
    if p = [] then row1 else persistentFields.foldl (mergeField p) row1

theorem getVal_setA_eq (r : PRow) (f : String) (v : Val) :
    getVal (setA f v r) f = v := by
  unfold getVal
  rw [lookupA_setA_eq]
  rfl

theorem getVal_setA_ne (r : PRow) (f g : String) (v : Val) (h : f ≠ g) :
    getVal (setA f v r) g = getVal r g := by
  unfold getVal
  rw [lookupA_setA_ne _ _ h]

theorem mergeField_keeps (p r : PRow) (f g : String)
    (hg : isBlank (getVal r g) = false) :
    getVal (mergeField p r f) g = getVal r g := by
  unfold mergeField
  split_ifs with h1 h2
  · rfl
  · by_cases hfg : f = g
    · subst hfg
      have hbl := (Bool.and_eq_true _ _).mp h2 |>.2
      rw [hg] at hbl
      exact absurd hbl (by simp)
    · exact getVal_setA_ne r f g _ hfg
  · rfl

theorem mergeField_inv (p r0 r : PRow) (f : String)
    (hinv : ∀ g, getVal r g = getVal r0 g
      ∨ (isBlank (getVal r0 g) = true ∧ getVal r g = getVal p g)) :
    ∀ g, getVal (mergeField p r f) g = getVal r0 g
      ∨ (isBlank (getVal r0 g) = true
         ∧ getVal (mergeField p r f) g = getVal p g) := by
  intro g
  unfold mergeField
  split_ifs with h1 h2
  · exact hinv g
  · by_cases hfg : f = g
    · subst hfg
      right
      have hbl := (Bool.and_eq_true _ _).mp h2 |>.2
      refine ⟨?_, getVal_setA_eq r f _⟩
      rcases hinv f with he | ⟨hb, _⟩
      · rw [← he]
        exact hbl
      · exact hb
    · rw [getVal_setA_ne r f g _ hfg]
      exact hinv g
  · exact hinv g

theorem mergeField_roles (p r : PRow) (f : String) :
    getVal (mergeField p r f) "snapshot_roles"
      = getVal r "snapshot_roles" := by
  unfold mergeField
  split_ifs with h1 h2
  · rfl
  · exact getVal_setA_ne r f _ _ h1
  · rfl

theorem foldl_mergeField_keeps (p : PRow) (l : List String) (r : PRow)
    (g : String) (hg : isBlank (getVal r g) = false) :
    getVal (l.foldl (mergeField p) r) g = getVal r g := by
  induction l generalizing r with
  | nil => rfl
  | cons f fs ih =>
    rw [List.foldl_cons]
    have hstep := mergeField_keeps p r f g hg
    rw [ih (mergeField p r f) (by rw [hstep]; exact hg), hstep]

theorem foldl_mergeField_inv (p r0 : PRow) (l : List String) (r : PRow)
    (hinv : ∀ g, getVal r g = getVal r0 g
      ∨ (isBlank (getVal r0 g) = true ∧ getVal r g = getVal p g)) :
    ∀ g, getVal (l.foldl (mergeField p) r) g = getVal r0 g
      ∨ (isBlank (getVal r0 g) = true
         ∧ getVal (l.foldl (mergeField p) r) g = getVal p g) := by
  induction l generalizing r with
  | nil => exact hinv
  | cons f fs ih =>
    rw [List.foldl_cons]
    exact ih (mergeField p r f) (mergeField_inv p r0 r f hinv)

theorem foldl_mergeField_roles (p : PRow) (l : List String) (r : PRow) :
    getVal (l.foldl (mergeField p) r) "snapshot_roles"
      = getVal r "snapshot_roles" := by
  induction l generalizing r with
  | nil => rfl
  | cons f fs ih =>
    rw [List.foldl_cons, ih (mergeField p r f), mergeField_roles]

/-- C10: in `_merge_persistent_fields`, a persistent field whose fresh value
is not blank (`None`/`False`/`[]`) is never overwritten; every merged value
is either the fresh one or — only when the fresh value was blank — the
prior row's value; and `snapshot_roles` is never copied from the prior
row. -/
theorem C10_merge_persistent (ts : String) (row : PRow) (prior : Option PRow) :
    (∀ f, f ∈ persistentFields →
      isBlank (getVal row f) = false →
      getVal (merge_persistent_row ts row prior) f = getVal row f)
    ∧ (∀ f, f ∈ persistentFields →
      getVal (merge_persistent_row ts row prior) f = getVal row f
      ∨ (isBlank (getVal row f) = true
         ∧ getVal (merge_persistent_row ts row prior) f
             = getVal (prior.getD []) f))
    ∧ getVal (merge_persistent_row ts row prior) "snapshot_roles"
        = getVal row "snapshot_roles" := by
  have hnolast : ∀ g ∈ persistentFields, g ≠ "last_seen_loop_ts" := by decide
  have hrow1 : ∀ f, f ∈ persistentFields →
      getVal (setA "last_seen_loop_ts" (Val.vstr ts) row) f = getVal row f :=
    fun f hf =>
      getVal_setA_ne row _ f _ (fun he => hnolast f hf he.symm)
  have hroles : ("snapshot_roles" : String) ∈ persistentFields := by decide
  refine ⟨?_, ?_, ?_⟩
  · intro f hf hbl
    unfold merge_persistent_row
    cases prior with
    | none => exact hrow1 f hf
    | some p =>
      by_cases hp : p = []
      · simp only [hp, if_true]
        exact hrow1 f hf
      · simp only [hp, if_false]
        rw [foldl_mergeField_keeps p persistentFields _ f
          (by rw [hrow1 f hf]; exact hbl)]
        exact hrow1 f hf
  · intro f hf
    unfold merge_persistent_row
    cases prior with
    | none => exact Or.inl (hrow1 f hf)
    | some p =>
      by_cases hp : p = []
      · simp only [hp, if_true]
        exact Or.inl (hrow1 f hf)
      · simp only [hp, if_false, Option.getD_some]
        have hstart : ∀ g,
            getVal (setA "last_seen_loop_ts" (Val.vstr ts) row) g
              = getVal (setA "last_seen_loop_ts" (Val.vstr ts) row) g
            ∨ (isBlank (getVal (setA "last_seen_loop_ts" (Val.vstr ts) row) g)
                = true
               ∧ getVal (setA "last_seen_loop_ts" (Val.vstr ts) row) g
                  = getVal p g) :=
          fun g => Or.inl rfl
        rcases foldl_mergeField_inv p _ persistentFields _ hstart f with he | ⟨hb, he⟩
        · exact Or.inl (by rw [he, hrow1 f hf])
        · exact Or.inr ⟨by rw [← hrow1 f hf]; exact hb, he⟩
  · unfold merge_persistent_row
    cases prior with
    | none => exact hrow1 _ hroles
    | some p =>
      by_cases hp : p = []
      · simp only [hp, if_true]
        exact hrow1 _ hroles
      · simp only [hp, if_false]
        rw [foldl_mergeField_roles]
        exact hrow1 _ hroles

/-- The fresh row for the C10 witness: `logged` already set, `queued` and
`skip_reason` blank, fresh `snapshot_roles`. -/
def rowW10 : PRow :=
  [("game_id", Val.vstr "G"), ("queued", Val.vnone),
   ("logged", Val.vbool true), ("skip_reason", Val.vnone),
   ("snapshot_roles", Val.vlist ["best_price"])]

/-- The prior row for the C10 witness. -/
def priorW10 : PRow :=
  [("queued", Val.vbool true), ("logged", Val.vbool false),
   ("skip_reason", Val.vstr "low_ev"),
   ("snapshot_roles", Val.vlist ["old_role"])]

/-- C10, witness: the merge theorem applied to `rowW10`/`priorW10` — the
non-blank `logged` survives and `snapshot_roles` is not copied. -/
theorem C10_witness :
    getVal (merge_persistent_row "T1" rowW10 (some priorW10)) "logged"
      = getVal rowW10 "logged"
    ∧ getVal (merge_persistent_row "T1" rowW10 (some priorW10)) "snapshot_roles"
      = getVal rowW10 "snapshot_roles" :=
  ⟨(C10_merge_persistent "T1" rowW10 (some priorW10)).1 "logged"
      (by decide) (by decide),
   (C10_merge_persistent "T1" rowW10 (some priorW10)).2.2⟩

end Cooking
